import Mathlib

/-!
Verification development for the valuation engine and data pipeline of a
browser-based equity-research terminal.

The TypeScript sources are shallowly embedded over `ℚ`:

* JavaScript numbers are modelled as rationals.  All arithmetic that the
  embedded code paths perform on in-range inputs is exact rational
  arithmetic, so `ℚ` is a faithful carrier except for the IEEE special
  values; a dedicated model `JNum` with `nan`/`inf` values is used for the
  one property that is about NaN propagation (`dcfPriceJS`).
* A JavaScript truthiness test `x ? a : b` on a number is modelled as
  `if x ≠ 0 then a else b` (NaN, which is also falsy, does not arise on
  the `ℚ` carrier).
* The EPS-CAGR computed by `computeAll` takes a real k-th root
  (`(last/first) ** (1/(len-1))`), which has no exact rational value for
  horizons of three or more historical years.  Since no property below
  depends on its value, the orchestrator is embedded as `computeAllCore`
  taking the already-computed CAGR as an explicit parameter in place of
  the `histEPS` array; everything else follows the source line by line.
* `Object.values`/`Object.entries` iteration order (insertion order) is
  modelled by using `List`s in place of string-keyed records.
-/

/-- Signal classification returned by `assignSignal` ("BUY" | "HOLD" | "SELL" | "N/A"). -/
inductive Signal where
  | BUY
  | HOLD
  | SELL
  | NA
deriving DecidableEq

/-- Scenario key ("Base" | "Bull" | "Bear"), from `ScenarioContext.tsx`. -/
inductive ScenarioKey where
  | Base
  | Bull
  | Bear
deriving DecidableEq

/-- Baseline financial snapshot, from `types/valuation` (`interface Baseline`). -/
structure Baseline where
  revenue : ℚ
  ebitda : ℚ
  adj_ebitda : ℚ
  adj_ebitda_margin : ℚ
  ebitda_margin : ℚ
  net_income : ℚ
  adj_net_income : ℚ
  fcf : ℚ
  adj_eps : ℚ
  eps : ℚ
  dps : ℚ
  current_price : ℚ
  shares_diluted : ℚ
  net_debt : ℚ
  bvps : ℚ
  roe : ℚ
  total_debt : ℚ
  total_equity : ℚ
  total_assets : ℚ
  goodwill : ℚ
  tax_rate : ℚ
  payout_ratio : ℚ
  plowback_ratio : ℚ
  gross_margin : ℚ
  cogs : ℚ
  gross_profit : ℚ
  sga : ℚ
  da_total : ℚ
  operating_income : ℚ
  interest_expense : ℚ
  pretax_income : ℚ
  tax : ℚ
  ocf : ℚ
  ebit : ℚ
  shares_basic : ℚ
  capex : ℚ
  net_borrowing : ℚ

/-- User-adjustable assumptions, from `types/valuation` (`interface Assumptions`). -/
structure Assumptions where
  scenario : ScenarioKey
  yr1_g : ℚ
  yr2_g : ℚ
  yr3_g : ℚ
  lt_g : ℚ
  terminal_g : ℚ
  wacc : ℚ
  cost_of_equity : ℚ
  target_ebitda_m : ℚ
  capex_pct : ℚ
  exit_mult : ℚ
  proj_years_n : ℕ
  n_sims : ℕ
  ddm_g : ℚ
  beta : ℚ
  tax_rate : ℚ
  rf : ℚ
  erp : ℚ
  cost_of_debt : ℚ
  hl : ℚ

/-- One pro-forma projection row, from `types/valuation` (`interface ProFormaRow`). -/
structure ProFormaRow where
  year : ℕ
  revenue : ℚ
  cogs : ℚ
  gross_profit : ℚ
  sga : ℚ
  da : ℚ
  op_inc : ℚ
  interest : ℚ
  pretax : ℚ
  tax : ℚ
  net_income : ℚ
  ebitda : ℚ
  capex : ℚ
  fcff : ℚ
  fcfe : ℚ
  dividends : ℚ
  ebitda_margin : ℚ

/-- All-zero `ProFormaRow`, used as the out-of-bounds default when embedding
JavaScript array indexing on paths the source only reaches with a non-empty
projection. -/
def zeroRow : ProFormaRow :=
  ⟨0, 0, 0, 0, 0, 0, 0, 0, 0, 0, 0, 0, 0, 0, 0, 0, 0⟩

/-- One residual-income projection row (`interface RIProjectionRow`). -/
structure RIProjectionRow where
  year : ℕ
  bvps_start : ℚ
  eps_proj : ℚ
  required_return : ℚ
  ri : ℚ
  pv_ri : ℚ

/-- One signal-table row (`interface SignalRow`).  The `vsMarket` display string
`"x.x%"` is abstracted to the rational percentage it formats (`none` for "N/A"). -/
structure SignalRow where
  method : String
  intrinsicValue : ℚ
  vsMarket : Option ℚ
  signal : Signal
deriving DecidableEq

/-- Peer comparable multiples, as consumed by `computeAll`
(`{ ev_ebitda, ev_rev, pe, peg, pb, pcf? }` — `pcf` optional there). -/
structure Comp where
  ev_ebitda : ℚ
  ev_rev : ℚ
  pe : ℚ
  peg : ℚ
  pb : ℚ
  pcf : Option ℚ

/-- Business segment (`interface Segment`); passed to `computeAll` but unused there. -/
structure Segment where
  revenue : ℚ
  adj_op_margin : ℚ

/-- SOTP acquisition record (`{ rev, margin, mult }`). -/
structure Acq where
  rev : ℚ
  margin : ℚ
  mult : ℚ

/-- Insertion sort by a boolean "less or equal" test; models JavaScript
`Array.prototype.sort` with a numeric comparator (ascending). -/
def insertLe {α : Type} (le : α → α → Bool) (x : α) : List α → List α
  | [] => [x]
  | y :: ys => if le x y then x :: y :: ys else y :: insertLe le x ys

/-- Full insertion sort driven by `insertLe`. -/
def sortLe {α : Type} (le : α → α → Bool) : List α → List α
  | [] => []
  | x :: xs => insertLe le x (sortLe le xs)

/-- Growth rate for zero-indexed projection year `i`, the body of the
`Array.from` callback in `buildGrowthSchedule` (`calculations.ts`). -/
def growthRate (a : Assumptions) (i : ℕ) : ℚ :=
  if i = 0 then a.yr1_g
  else if i = 1 then a.yr2_g
  else if i = 2 then a.yr3_g
  else a.yr3_g + (((i : ℚ) - 2) / max ((a.proj_years_n : ℚ) - 3) 1) * (a.lt_g - a.yr3_g)

/-- `buildGrowthSchedule(a)` from `calculations.ts`: an array of length
`proj_years_n` whose `i`-th entry is `growthRate a i`. -/
def buildGrowthSchedule (a : Assumptions) : List ℚ :=
  (List.range a.proj_years_n).map (growthRate a)

/-- Baseline COGS ratio with the 0.55 fallback (`B.revenue ? B.cogs / B.revenue : 0.55`). -/
def cogsPct (B : Baseline) : ℚ := if B.revenue ≠ 0 then B.cogs / B.revenue else 11/20

/-- Baseline SG&A ratio with the 0.20 fallback. -/
def sgaPct (B : Baseline) : ℚ := if B.revenue ≠ 0 then B.sga / B.revenue else 1/5

/-- Baseline D&A ratio with the 0.03 fallback. -/
def daPct (B : Baseline) : ℚ := if B.revenue ≠ 0 then B.da_total / B.revenue else 3/100

/-- Baseline interest ratio with the 0.025 fallback. -/
def intPct (B : Baseline) : ℚ := if B.revenue ≠ 0 then B.interest_expense / B.revenue else 1/40

/-- Body of the `growthRates.map((_, i) => ...)` callback in `buildProforma`
(`calculations.ts`).  The local `ebitdaM` glide value is kept exactly as in the
source, where it is computed and then never used by any row field. -/
def proformaRow (B : Baseline) (gs : List ℚ) (a : Assumptions) (i : ℕ) : ProFormaRow :=
  let rev := B.revenue * ((gs.take (i + 1)).foldl (fun acc g => acc * (1 + g)) 1)
  let marginProg := ((i : ℚ) + 1) / (gs.length : ℚ)
  let _ebitdaM := B.ebitda_margin + marginProg * (a.target_ebitda_m - B.ebitda_margin)
  let cogs := rev * cogsPct B
  let gp := rev - cogs
  let sga := rev * sgaPct B
  let op_inc := gp - sga
  let da := rev * daPct B
  let ebitda := op_inc + da
  let interest := rev * intPct B
  let pretax := op_inc - interest
  let tax := if pretax > 0 then pretax * B.tax_rate else 0
  let ni := pretax - tax
  let capex := rev * a.capex_pct
  let fcff := op_inc * (1 - B.tax_rate) + da - capex
  let fcfe := fcff - interest * (1 - B.tax_rate)
  let dividends := if ni > 0 then ni * B.payout_ratio else 0
  { year := 2025 + i
    revenue := rev
    cogs := cogs
    gross_profit := gp
    sga := sga
    da := da
    op_inc := op_inc
    interest := interest
    pretax := pretax
    tax := tax
    net_income := ni
    ebitda := ebitda
    capex := capex
    fcff := fcff
    fcfe := fcfe
    dividends := dividends
    ebitda_margin := if rev ≠ 0 then ebitda / rev else 0 }

/-- `buildProforma(B, growthRates, a)` from `calculations.ts`. -/
def buildProforma (B : Baseline) (gs : List ℚ) (a : Assumptions) : List ProFormaRow :=
  (List.range gs.length).map (proformaRow B gs a)

/-- Result record of `dcfPrice` (`{ pps, ev, pvFcfs, pvTv }`). -/
structure DcfResult where
  pps : ℚ
  ev : ℚ
  pvFcfs : ℚ
  pvTv : ℚ

/-- `dcfPrice(fcfs, terminalVal, discountRate, netDebt, shares)` from
`calculations.ts`, on the rational carrier.  `dfs[dfs.length - 1]` on an empty
array is `undefined` in JavaScript; here the out-of-bounds read defaults to 0
(see `dcfPriceJS` for the NaN-faithful model of that corner). -/
def dcfPrice (fcfs : List ℚ) (terminalVal discountRate netDebt shares : ℚ) : DcfResult :=
  let dfs := (List.range fcfs.length).map (fun i => 1 / (1 + discountRate) ^ (i + 1))
  let pvFcfs := (List.zipWith (fun f df => f * df) fcfs dfs).sum
  let pvTv := terminalVal * (dfs.getLast?.getD 0)
  let ev := pvFcfs + pvTv
  let pps := if shares ≠ 0 then (ev - netDebt) / shares else 0
  ⟨pps, ev, pvFcfs, pvTv⟩

/-- `assignSignal(intrinsic, market)` from `calculations.ts`.  The guard
`!market || market <= 0` collapses to `market ≤ 0` on `ℚ`. -/
def assignSignal (intrinsic market : ℚ) : Signal :=
  if market = 0 ∨ market ≤ 0 then .NA
  else if intrinsic > market * (23/20) then .BUY
  else if intrinsic < market * (17/20) then .SELL
  else .HOLD

/-- Result record of `computeWACC` (`{ wacc, ke, kd_after_tax }`). -/
structure WaccResult where
  wacc : ℚ
  ke : ℚ
  kd_after_tax : ℚ

/-- `computeWACC(rf, beta, erp, kd, T, marketCapE, totalDebtD)` from `calculations.ts`. -/
def computeWACC (rf beta erp kd T marketCapE totalDebtD : ℚ) : WaccResult :=
  let ke := rf + beta * erp
  let kd_after_tax := kd * (1 - T)
  let V := marketCapE + totalDebtD
  if V ≤ 0 then ⟨ke, ke, kd_after_tax⟩
  else ⟨(marketCapE / V) * ke + (totalDebtD / V) * kd_after_tax, ke, kd_after_tax⟩

/-- Result record of `computeFCFE` (`{ pps_fcfe, ev_fcfe, fcfes }`). -/
structure FcfeResult where
  pps_fcfe : ℚ
  ev_fcfe : ℚ
  fcfes : List ℚ

/-- `computeFCFE(proforma, B, a, ke)` from `calculations.ts`.
`a.tax_rate || B.tax_rate` is the truthiness fallback on 0. -/
def computeFCFE (proforma : List ProFormaRow) (B : Baseline) (a : Assumptions) (ke : ℚ) :
    FcfeResult :=
  let T := if a.tax_rate ≠ 0 then a.tax_rate else B.tax_rate
  let netBorrowPerYear := B.net_borrowing / max (proforma.length : ℚ) 1
  let fcfes := proforma.map (fun r => r.fcff - r.interest * (1 - T) + netBorrowPerYear)
  let g := a.terminal_g
  let n := proforma.length
  if ke ≤ g then ⟨0, 0, fcfes⟩
  else
    let tv := (fcfes.getLast?.getD 0) * (1 + g) / (ke - g)
    let pvFcfes := (fcfes.enum.map (fun p => p.2 / (1 + ke) ^ (p.1 + 1))).sum
    let pvTv := tv / (1 + ke) ^ n
    let equityValue := pvFcfes + pvTv
    let pps_fcfe := if B.shares_diluted > 0 then equityValue / B.shares_diluted else 0
    ⟨pps_fcfe, equityValue + B.net_debt, fcfes⟩

/-- All-zero `RIProjectionRow`, used as out-of-bounds default. -/
def zeroRiRow : RIProjectionRow := ⟨0, 0, 0, 0, 0, 0⟩

/-- The `for`-loop body of `computeRI`, carrying `(i, bvps_t, eps_t)` through
the growth schedule. -/
def riLoop (ke plowback : ℚ) : List ℚ → ℕ → ℚ → ℚ → List RIProjectionRow
  | [], _, _, _ => []
  | gr :: rest, i, bvps_t, eps_t =>
    let eps' := eps_t * (1 + gr)
    let required_return := ke * bvps_t
    let ri := eps' - required_return
    let pv_ri := ri / (1 + ke) ^ (i + 1)
    { year := 2025 + i, bvps_start := bvps_t, eps_proj := eps',
      required_return := required_return, ri := ri, pv_ri := pv_ri } ::
      riLoop ke plowback rest (i + 1) (bvps_t + eps' * plowback) eps'

/-- Result record of `computeRI` (`{ pps_ri, riRows }`). -/
structure RiResult where
  pps_ri : ℚ
  riRows : List RIProjectionRow

/-- `computeRI(B, a, ke)` from `calculations.ts` (clean-surplus residual income). -/
def computeRI (B : Baseline) (a : Assumptions) (ke : ℚ) : RiResult :=
  if B.eps ≤ 0 ∨ B.bvps ≤ 0 ∨ ke ≤ 0 then ⟨0, []⟩
  else
    let plowback := if B.plowback_ratio > 0 then B.plowback_ratio else 1 - B.payout_ratio
    let growthRates := buildGrowthSchedule a
    let n := growthRates.length
    let g := a.terminal_g
    let riRows := riLoop ke plowback growthRates 0 B.bvps B.eps
    let sumPvRi := (riRows.map (fun r => r.pv_ri)).sum
    let ri_terminal :=
      if ke > g then ((riRows.getLast?.getD zeroRiRow).ri * (1 + g)) / (ke - g) else 0
    let pv_terminal_ri := ri_terminal / (1 + ke) ^ n
    ⟨B.bvps + sumPvRi + pv_terminal_ri, riRows⟩

/-- `computeHModelDDM(B, a, ke)` from `calculations.ts`.  `a.hl ?? 2.5` is the
identity here because `hl` is a required field of `Assumptions`. -/
def computeHModelDDM (B : Baseline) (a : Assumptions) (ke : ℚ) : ℚ :=
  let D0 := B.dps
  let gL := a.terminal_g
  let gS := a.yr1_g
  let H := a.hl
  let r := ke
  if D0 ≤ 0 ∨ r ≤ gL then 0
  else max 0 ((D0 * (1 + gL)) / (r - gL) + (D0 * H * (gS - gL)) / (r - gL))

/-- ROE with the 0.10 fallback (`B.roe > 0 ? B.roe : 0.10`), shared by the
justified-multiple models. -/
def justRoe (B : Baseline) : ℚ := if B.roe > 0 then B.roe else 1/10

/-- Plowback with the `1 - payout` fallback
(`B.plowback_ratio > 0 ? B.plowback_ratio : 1 - B.payout_ratio`). -/
def justPlowback (B : Baseline) : ℚ :=
  if B.plowback_ratio > 0 then B.plowback_ratio else 1 - B.payout_ratio

/-- Result record of `computeJustifiedPE` (`{ pps_jpe, justifiedPE }`). -/
structure JpeResult where
  pps_jpe : ℚ
  justifiedPE : ℚ

/-- `computeJustifiedPE(B, a, ke)` from `calculations.ts`. -/
def computeJustifiedPE (B : Baseline) (a : Assumptions) (ke : ℚ) : JpeResult :=
  let roe := justRoe B
  let b := justPlowback B
  let g := min (roe * b) (ke - 1/1000)
  let r := ke
  if r ≤ g then ⟨0, 0⟩
  else
    let payout := 1 - b
    let justifiedPE := payout / (r - g)
    let forwardEps := B.eps * (1 + a.yr1_g)
    ⟨justifiedPE * forwardEps, justifiedPE⟩

/-- Result record of `computeJustifiedPB` (`{ pps_jpb, justifiedPB }`). -/
structure JpbResult where
  pps_jpb : ℚ
  justifiedPB : ℚ

/-- `computeJustifiedPB(B, a, ke)` from `calculations.ts`. -/
def computeJustifiedPB (B : Baseline) (a : Assumptions) (ke : ℚ) : JpbResult :=
  let roe := justRoe B
  let b := justPlowback B
  let g := min (roe * b) (ke - 1/1000)
  let r := ke
  if r ≤ g ∨ B.bvps ≤ 0 then ⟨0, 0⟩
  else
    let justifiedPB := (roe - g) / (r - g)
    ⟨justifiedPB * B.bvps, justifiedPB⟩

/-- Result record of `computePCF` (`{ pps_pcf, cfoPerShare }`). -/
structure PcfResult where
  pps_pcf : ℚ
  cfoPerShare : ℚ

/-- `computePCF(B, medianPcf)` from `calculations.ts`. -/
def computePCF (B : Baseline) (medianPcf : ℚ) : PcfResult :=
  if B.shares_diluted ≤ 0 ∨ B.ocf ≤ 0 then ⟨0, 0⟩
  else
    let cfoPerShare := B.ocf / B.shares_diluted
    ⟨medianPcf * cfoPerShare, cfoPerShare⟩

/-- The peer-median helper from `computeAll`: sort ascending, middle element for
odd length, mean of the two middle elements for even length, 0 for empty.  The
`isFinite` pre-filter is the identity on the rational carrier. -/
def median (arr : List ℚ) : ℚ :=
  let s := sortLe (fun x y => decide (x ≤ y)) arr
  if s.length = 0 then 0
  else
    let m := s.length / 2
    if s.length % 2 = 1 then s.getD m 0
    else (s.getD (m - 1) 0 + s.getD m 0) / 2

/-- The extended `ComputedValuations` record returned by `computeAll`
(`calculations.ts`).  `riRows`, `proforma`, `growthSchedule` and `signalRows`
are carried as lists; `epsCAGR` is the parameter described in the header. -/
structure ComputedValuations where
  pps_fcff : ℚ
  ev_fcff : ℚ
  pvFcfs : ℚ
  pvTv : ℚ
  pps_fcfe : ℚ
  ev_fcfe : ℚ
  pps_ri : ℚ
  pps_hddm : ℚ
  pps_jpe : ℚ
  pps_jpb : ℚ
  pps_pcf : ℚ
  wacc_calc : ℚ
  ke_calc : ℚ
  kd_after_tax : ℚ
  pps_ddm : ℚ
  pps_ebitda : ℚ
  pps_rev : ℚ
  pps_pe : ℚ
  pps_peg : ℚ
  pps_pb : ℚ
  pps_sotp : ℚ
  justifiedPE : ℚ
  justifiedPB : ℚ
  cfoPerShare : ℚ
  riRows : List RIProjectionRow
  signalRows : List SignalRow
  finalSignal : Signal
  buys : ℕ
  holds : ℕ
  sells : ℕ
  medianPE : ℚ
  medianEvm : ℚ
  medianEvRev : ℚ
  medianPeg : ℚ
  medianPb : ℚ
  medianPcf : ℚ
  epsCAGR : ℚ
  proforma : List ProFormaRow
  growthSchedule : List ℚ
  sotvEV : ℚ

/-- Consensus pick from the vote counts: first-encountered signal among the
non-"N/A" ones, replaced only by a strictly higher vote count — the model of
`Object.entries(counts).sort((a, b) => b[1] - a[1])[0]?.[0] ?? "HOLD"` with a
stable sort over an insertion-ordered record. -/
def finalSignalOf (rows : List SignalRow) : Signal :=
  let sigs := (rows.map (fun r => r.signal)).filter (fun s => s ≠ Signal.NA)
  let cands := sigs.foldl (fun acc s => if s ∈ acc then acc else acc ++ [s]) []
  let cnt := fun s => sigs.count s
  (cands.foldl
    (fun best s =>
      match best with
      | none => some s
      | some b => if cnt s > cnt b then some s else best)
    none).getD Signal.HOLD

/-- `computeAll(B, comps, segments, acquisitions, histEPS, a)` from
`calculations.ts`, with the EPS-CAGR real root passed in as `epsCAGR` (see the
file header).  Records are passed as lists in `Object.values` order. -/
def computeAllCore (B : Baseline) (comps : List Comp) (segments : List Segment)
    (acquisitions : List Acq) (epsCAGR : ℚ) (a : Assumptions) : ComputedValuations :=
  let _ := segments
  let medianPE := median (comps.map (fun c => c.pe))
  let medianEvm := median (comps.map (fun c => c.ev_ebitda))
  let medianEvRev := median (comps.map (fun c => c.ev_rev))
  let medianPeg := median (comps.map (fun c => c.peg))
  let medianPb := median (comps.map (fun c => c.pb))
  let medianPcf := median (comps.map (fun c => c.pcf.getD 15))
  let growthSchedule := buildGrowthSchedule a
  let proforma := buildProforma B growthSchedule a
  let fcffs := proforma.map (fun r => r.fcff)
  let lastEbitda := (proforma.getLast?.getD zeroRow).ebitda
  let marketCap := B.current_price * B.shares_diluted
  let w := computeWACC a.rf a.beta a.erp a.cost_of_debt a.tax_rate marketCap B.total_debt
  let ke := if w.ke > 0 then w.ke else a.cost_of_equity
  let tvFcff :=
    if a.wacc > a.terminal_g then
      (fcffs.getLast?.getD 0) * (1 + a.terminal_g) / (a.wacc - a.terminal_g)
    else lastEbitda * a.exit_mult
  let dcf := dcfPrice fcffs tvFcff a.wacc B.net_debt B.shares_diluted
  let divProj := proforma.map
    (fun r => if B.shares_diluted ≠ 0 then r.dividends / B.shares_diluted else 0)
  let pvDivs := (divProj.enum.map (fun p => p.2 / (1 + a.cost_of_equity) ^ (p.1 + 1))).sum
  let finalDiv := (divProj.getLast?.getD 0) * (1 + a.terminal_g)
  let tvDdm :=
    if a.cost_of_equity > a.terminal_g then finalDiv / (a.cost_of_equity - a.terminal_g) else 0
  let pvTvDdm := tvDdm / (1 + a.cost_of_equity) ^ a.proj_years_n
  let pps_ddm := if B.dps > 0 then pvDivs + pvTvDdm else 0
  let pps_ebitda :=
    if B.shares_diluted ≠ 0 then (B.adj_ebitda * medianEvm - B.net_debt) / B.shares_diluted else 0
  let pps_rev :=
    if B.shares_diluted ≠ 0 then (B.revenue * medianEvRev - B.net_debt) / B.shares_diluted else 0
  let pps_pe := medianPE * B.adj_eps
  let pegGrowth := if epsCAGR > 0 then epsCAGR else 1/20
  let pps_peg := medianPeg * pegGrowth * 100 * B.adj_eps
  let pps_pb := medianPb * B.bvps
  let sotvEV :=
    if acquisitions.length ≠ 0 then (acquisitions.map (fun d => d.rev * d.margin * d.mult)).sum
    else B.adj_ebitda * medianEvm
  let pps_sotp := if B.shares_diluted ≠ 0 then (sotvEV - B.net_debt) / B.shares_diluted else 0
  let fcfe := computeFCFE proforma B a ke
  let ri := computeRI B a ke
  let pps_hddm := computeHModelDDM B a ke
  let jpe := computeJustifiedPE B a ke
  let jpb := computeJustifiedPB B a ke
  let pcf := computePCF B medianPcf
  let signalValues : List (String × ℚ) :=
    [("FCFF (DCF)", dcf.pps),
     ("FCFE (DCF)", fcfe.pps_fcfe),
     ("Residual Income", ri.pps_ri),
     ("DDM (2-Stage)", pps_ddm),
     ("H-Model DDM", pps_hddm),
     ("EBITDA Multiple", pps_ebitda),
     ("Revenue Multiple", pps_rev),
     ("P/E Multiple", pps_pe),
     ("Justified P/E", jpe.pps_jpe),
     ("Justified P/B", jpb.pps_jpb),
     ("PEG", pps_peg),
     ("P/B", pps_pb),
     ("P/CF", pcf.pps_pcf),
     ("SOTP", pps_sotp)]
  let signalRows : List SignalRow :=
    (signalValues.filter (fun p => p.2 > 0)).map
      (fun p =>
        { method := p.1
          intrinsicValue := p.2
          vsMarket :=
            if B.current_price > 0 then some ((p.2 / B.current_price - 1) * 100) else none
          signal := assignSignal p.2 B.current_price })
  let buys := signalRows.countP (fun r => r.signal = Signal.BUY)
  let holds := signalRows.countP (fun r => r.signal = Signal.HOLD)
  let sells := signalRows.countP (fun r => r.signal = Signal.SELL)
  { pps_fcff := dcf.pps
    ev_fcff := dcf.ev
    pvFcfs := dcf.pvFcfs
    pvTv := dcf.pvTv
    pps_fcfe := fcfe.pps_fcfe
    ev_fcfe := fcfe.ev_fcfe
    pps_ri := ri.pps_ri
    pps_hddm := pps_hddm
    pps_jpe := jpe.pps_jpe
    pps_jpb := jpb.pps_jpb
    pps_pcf := pcf.pps_pcf
    wacc_calc := w.wacc
    ke_calc := w.ke
    kd_after_tax := w.kd_after_tax
    pps_ddm := pps_ddm
    pps_ebitda := pps_ebitda
    pps_rev := pps_rev
    pps_pe := pps_pe
    pps_peg := pps_peg
    pps_pb := pps_pb
    pps_sotp := pps_sotp
    justifiedPE := jpe.justifiedPE
    justifiedPB := jpb.justifiedPB
    cfoPerShare := pcf.cfoPerShare
    riRows := ri.riRows
    signalRows := signalRows
    finalSignal := finalSignalOf signalRows
    buys := buys
    holds := holds
    sells := sells
    medianPE := medianPE
    medianEvm := medianEvm
    medianEvRev := medianEvRev
    medianPeg := medianPeg
    medianPb := medianPb
    medianPcf := medianPcf
    epsCAGR := epsCAGR
    proforma := proforma
    growthSchedule := growthSchedule
    sotvEV := sotvEV }

/-- The five-multiples average from the dashboard shell `summaryData` memo
(`ValuationDashboard.tsx`):
`[pps_ebitda, pps_rev, pps_pe, pps_peg, pps_pb].reduce((a, b) => a + b, 0) / 5`. -/
def multiplesAvgOf (c : ComputedValuations) : ℚ :=
  (c.pps_ebitda + c.pps_rev + c.pps_pe + c.pps_peg + c.pps_pb) / 5

/-- The dashboard blended summary figure
(`pps_fcff * 0.35 + multiplesAvg * 0.45 + pps_sotp * 0.20`). -/
def summaryIntrinsic (c : ComputedValuations) : ℚ :=
  c.pps_fcff * (35/100) + multiplesAvgOf c * (45/100) + c.pps_sotp * (20/100)

/-- Modelled from the spec: a five-multiples average that excludes non-positive
(no-data) model values instead of coercing them to zero, for comparison with
the dashboard `multiplesAvgOf` above. -/
def specMultiplesAvg (c : ComputedValuations) : ℚ :=
  let l := [c.pps_ebitda, c.pps_rev, c.pps_pe, c.pps_peg, c.pps_pb].filter (fun v => 0 < v)
  if l.length = 0 then 0 else l.sum / (l.length : ℚ)

/-- Modelled from the spec: the 35%/45%/20% blend with the exclusion-based
multiples average. -/
def specSummaryIntrinsic (c : ComputedValuations) : ℚ :=
  c.pps_fcff * (35/100) + specMultiplesAvg c * (45/100) + c.pps_sotp * (20/100)

/-- Preset-controlled assumption fields (`PresetValues = Omit<Assumptions,
"scenario" | "proj_years_n" | "n_sims" | "ddm_g">`, from `presets.ts`). -/
structure ScenarioPreset where
  yr1_g : ℚ
  yr2_g : ℚ
  yr3_g : ℚ
  lt_g : ℚ
  terminal_g : ℚ
  wacc : ℚ
  cost_of_equity : ℚ
  target_ebitda_m : ℚ
  capex_pct : ℚ
  exit_mult : ℚ
  beta : ℚ
  tax_rate : ℚ
  rf : ℚ
  erp : ℚ
  cost_of_debt : ℚ
  hl : ℚ

/-- `SCENARIO_PRESETS` from `presets.ts`, with the exact published constants. -/
def SCENARIO_PRESETS : ScenarioKey → ScenarioPreset
  | .Base =>
    { yr1_g := 1/40, yr2_g := 7/200, yr3_g := 1/25, lt_g := 3/100, terminal_g := 1/40
      wacc := 17/200, cost_of_equity := 17/200, target_ebitda_m := 27/100, capex_pct := 1/40
      exit_mult := 14, beta := 1, tax_rate := 21/100, rf := 43/1000, erp := 11/200
      cost_of_debt := 9/200, hl := 5/2 }
  | .Bull =>
    { yr1_g := 9/200, yr2_g := 11/200, yr3_g := 3/50, lt_g := 9/200, terminal_g := 3/100
      wacc := 3/40, cost_of_equity := 3/40, target_ebitda_m := 3/10, capex_pct := 1/50
      exit_mult := 17, beta := 17/20, tax_rate := 21/100, rf := 43/1000, erp := 11/200
      cost_of_debt := 1/25, hl := 5/2 }
  | .Bear =>
    { yr1_g := 1/200, yr2_g := 1/100, yr3_g := 1/50, lt_g := 1/50, terminal_g := 1/50
      wacc := 1/10, cost_of_equity := 1/10, target_ebitda_m := 23/100, capex_pct := 3/100
      exit_mult := 11, beta := 6/5, tax_rate := 21/100, rf := 43/1000, erp := 11/200
      cost_of_debt := 1/20, hl := 5/2 }

/-- `applyScenario` from `ScenarioContext.tsx`:
`setAssumptions(prev => ({ ...prev, ...SCENARIO_PRESETS[s], scenario: s }))` —
every preset-controlled field is overwritten, the scenario label is set, and the
fields the preset type omits (`proj_years_n`, `n_sims`, `ddm_g`) are spread
through from `prev`. -/
def applyScenario (prev : Assumptions) (s : ScenarioKey) : Assumptions :=
  let p := SCENARIO_PRESETS s
  { prev with
    yr1_g := p.yr1_g, yr2_g := p.yr2_g, yr3_g := p.yr3_g, lt_g := p.lt_g
    terminal_g := p.terminal_g, wacc := p.wacc, cost_of_equity := p.cost_of_equity
    target_ebitda_m := p.target_ebitda_m, capex_pct := p.capex_pct, exit_mult := p.exit_mult
    beta := p.beta, tax_rate := p.tax_rate, rf := p.rf, erp := p.erp
    cost_of_debt := p.cost_of_debt, hl := p.hl, scenario := s }

/-- IEEE-style JavaScript number model for the NaN-propagation property of
`dcfPrice`: a rational, NaN, or a signed infinity.  Out-of-bounds array reads
(`undefined`) behave as NaN once they enter arithmetic. -/
inductive JNum where
  | num (q : ℚ)
  | nan
  | inf
  | ninf
deriving DecidableEq

namespace JNum

/-- JavaScript `+` on numbers. -/
def add : JNum → JNum → JNum
  | num a, num b => num (a + b)
  | nan, _ => nan
  | _, nan => nan
  | inf, ninf => nan
  | ninf, inf => nan
  | inf, _ => inf
  | _, inf => inf
  | ninf, _ => ninf
  | _, ninf => ninf

/-- JavaScript unary minus. -/
def neg : JNum → JNum
  | num a => num (-a)
  | nan => nan
  | inf => ninf
  | ninf => inf

/-- JavaScript `-` on numbers. -/
def sub (a b : JNum) : JNum := add a (neg b)

/-- JavaScript `*` on numbers. -/
def mul : JNum → JNum → JNum
  | num a, num b => num (a * b)
  | nan, _ => nan
  | _, nan => nan
  | inf, inf => inf
  | inf, ninf => ninf
  | ninf, inf => ninf
  | ninf, ninf => inf
  | inf, num b => if b = 0 then nan else if 0 < b then inf else ninf
  | num a, inf => if a = 0 then nan else if 0 < a then inf else ninf
  | ninf, num b => if b = 0 then nan else if 0 < b then ninf else inf
  | num a, ninf => if a = 0 then nan else if 0 < a then ninf else inf

/-- JavaScript `/` on numbers (the carrier has no signed zero; a zero
denominator gives the positive-zero behaviour). -/
def div : JNum → JNum → JNum
  | nan, _ => nan
  | _, nan => nan
  | num a, num b =>
    if b = 0 then (if a = 0 then nan else if 0 < a then inf else ninf) else num (a / b)
  | num _, inf => num 0
  | num _, ninf => num 0
  | inf, num b => if 0 ≤ b then inf else ninf
  | ninf, num b => if 0 ≤ b then ninf else inf
  | inf, inf => nan
  | inf, ninf => nan
  | ninf, inf => nan
  | ninf, ninf => nan

/-- JavaScript `**` with a natural exponent. -/
def pow (b : JNum) (n : ℕ) : JNum :=
  if n = 0 then num 1
  else
    match b with
    | num a => num (a ^ n)
    | nan => nan
    | inf => inf
    | ninf => if n % 2 = 0 then inf else ninf

/-- JavaScript truthiness of a number (`0` and `NaN` are falsy). -/
def truthy : JNum → Bool
  | num q => q ≠ 0
  | nan => false
  | inf => true
  | ninf => true

end JNum

/-- Array indexing in the `JNum` model: an out-of-bounds read is `undefined`,
which behaves as NaN in the arithmetic it is immediately fed into. -/
def jGet (l : List JNum) (i : ℕ) : JNum := (l.get? i).getD JNum.nan

/-- Result record of `dcfPriceJS`. -/
structure DcfResultJS where
  pps : JNum
  ev : JNum
  pvFcfs : JNum
  pvTv : JNum

/-- `dcfPrice` from `calculations.ts` once more, on the IEEE-style carrier, to
capture the behaviour of `dfs[dfs.length - 1]` on an empty cashflow array. -/
def dcfPriceJS (fcfs : List JNum) (terminalVal discountRate netDebt shares : JNum) :
    DcfResultJS :=
  let dfs := (List.range fcfs.length).map
    (fun i => JNum.div (JNum.num 1) (JNum.pow (JNum.add (JNum.num 1) discountRate) (i + 1)))
  let pvFcfs := (List.zipWith (fun f df => JNum.mul f df) fcfs dfs).foldl JNum.add (JNum.num 0)
  let pvTv := JNum.mul terminalVal (jGet dfs (dfs.length - 1))
  let ev := JNum.add pvFcfs pvTv
  let pps := if JNum.truthy shares then JNum.div (JNum.sub ev netDebt) shares else JNum.num 0
  ⟨pps, ev, pvFcfs, pvTv⟩

/-- XBRL unit entry as consumed by `pickAnnual` (`edgarXbrl.ts`).  The ISO date
strings `start`/`end`/`filed` are modelled by their epoch-millisecond values
(string comparison of ISO dates agrees with numeric order); `none` stands for a
missing (`undefined`) or empty-string field, and `val` carries the fact value.
The remaining metadata fields (`accn`, `cik`, `entityName`, `loc`, ...) play no
role in `pickAnnual` and are omitted. -/
structure Xbrl where
  form : String
  startD : Option ℤ
  endD : Option ℤ
  filed : Option ℤ
  val : ℚ
deriving DecidableEq

/-- `isAnnualForm(form)` from `edgarXbrl.ts`. -/
def isAnnualForm (form : String) : Bool :=
  form == "10-K" || form == "10-K/A" || form == "20-F" || form == "40-F"

/-- One day in epoch milliseconds (`86_400_000`). -/
def dayMs : ℤ := 86400000

/-- The filter predicate inside `pickAnnual`: annual form, both dates present,
and `(end - start) / 86_400_000` between 300 and 400 days inclusive. -/
def annualKeep (v : Xbrl) : Bool :=
  isAnnualForm v.form &&
    match v.startD, v.endD with
    | some s, some e => decide (300 * dayMs ≤ e - s) && decide (e - s ≤ 400 * dayMs)
    | _, _ => false

/-- Strict `>` on optional filed dates, mirroring
`(entry.filed ?? "") > (existing.filed ?? "")`: a missing date behaves as the
empty string, which is strictly below every real date. -/
def filedGt (a b : Option ℤ) : Bool :=
  match a, b with
  | some x, some y => decide (y < x)
  | some _, none => true
  | none, _ => false

/-- Non-strict companion of `filedGt` (`oLe a b ↔ ¬ filedGt a b` is proved below). -/
def oLe (a b : Option ℤ) : Prop :=
  match a, b with
  | some x, some y => x ≤ y
  | some _, none => False
  | none, _ => True

/-- The map key used by the dedup pass: the (present) period-end date. -/
def endKey (v : Xbrl) : ℤ := v.endD.getD 0

/-- `byYearEnd.set(entry.end, entry)` on an insertion-ordered association list:
replace the entry stored under the same key iff the new entry was filed
strictly later, otherwise append at the end. -/
def setKey (k : ℤ) (e : Xbrl) : List (ℤ × Xbrl) → List (ℤ × Xbrl)
  | [] => [(k, e)]
  | (k', e') :: rest =>
    if k' = k then (if filedGt e.filed e'.filed then (k', e) else (k', e')) :: rest
    else (k', e') :: setKey k e rest

/-- `pickAnnual(values)` from `edgarXbrl.ts`: filter to annual-duration 10-K
variants, deduplicate per period-end keeping the latest filed, and sort by
period-end ascending. -/
def pickAnnual (values : List Xbrl) : List Xbrl :=
  let annuals := values.filter annualKeep
  let byYearEnd := annuals.foldl (fun m e => setKey (endKey e) e m) []
  sortLe (fun x y => decide (endKey x ≤ endKey y)) (byYearEnd.map (fun p => p.2))

/-- All-zero baseline record, used as the base for concrete test fixtures. -/
def zeroBaseline : Baseline :=
  { revenue := 0, ebitda := 0, adj_ebitda := 0, adj_ebitda_margin := 0, ebitda_margin := 0
    net_income := 0, adj_net_income := 0, fcf := 0, adj_eps := 0, eps := 0, dps := 0
    current_price := 0, shares_diluted := 0, net_debt := 0, bvps := 0, roe := 0
    total_debt := 0, total_equity := 0, total_assets := 0, goodwill := 0, tax_rate := 0
    payout_ratio := 0, plowback_ratio := 0, gross_margin := 0, cogs := 0, gross_profit := 0
    sga := 0, da_total := 0, operating_income := 0, interest_expense := 0, pretax_income := 0
    tax := 0, ocf := 0, ebit := 0, shares_basic := 0, capex := 0, net_borrowing := 0 }

/-- All-zero assumptions record, used as the base for concrete test fixtures. -/
def zeroAssumptions : Assumptions :=
  { scenario := .Base, yr1_g := 0, yr2_g := 0, yr3_g := 0, lt_g := 0, terminal_g := 0
    wacc := 0, cost_of_equity := 0, target_ebitda_m := 0, capex_pct := 0, exit_mult := 0
    proj_years_n := 0, n_sims := 0, ddm_g := 0, beta := 0, tax_rate := 0, rf := 0, erp := 0
    cost_of_debt := 0, hl := 0 }

/-- One-year projection horizon on top of the zero assumptions. -/
def oneYearA : Assumptions := { zeroAssumptions with proj_years_n := 1 }

/-- Fixture for the blended-summary analysis: a baseline whose P/B model has no
data (peer median P/B is 0) while the other multiple models are positive. -/
def blendB : Baseline :=
  { zeroBaseline with
    revenue := 100, adj_ebitda := 30, adj_eps := 2, bvps := 5
    shares_diluted := 10, current_price := 20 }

/-- Single peer comp for the blended-summary analysis (P/B multiple 0). -/
def blendComp : Comp := { ev_ebitda := 8, ev_rev := 2, pe := 10, peg := 1, pb := 0, pcf := some 15 }

/-- Fixture for the pro-forma margin analysis: baseline cost ratios
55% / 20% / 3% on revenue 100. -/
def marginB : Baseline :=
  { zeroBaseline with revenue := 100, cogs := 55, sga := 20, da_total := 3 }

/-- One-year assumptions with a target EBITDA margin of 50%. -/
def marginA : Assumptions :=
  { zeroAssumptions with proj_years_n := 1, target_ebitda_m := 1/2 }

/-- Fixture for the justified-P/E clamp analysis: ROE 20%, plowback 50%,
so sustainable growth hits the `ke - 0.001` clamp for both test discount rates. -/
def clampB : Baseline := { zeroBaseline with roe := 1/5, plowback_ratio := 1/2, eps := 1 }

/-- Fixture for justified-P/E monotonicity: ROE 10%, plowback 10%, growth
well below both test discount rates. -/
def monoB : Baseline := { zeroBaseline with roe := 1/10, plowback_ratio := 1/10, eps := 1 }

/-- Healthy fixture for the scenario comparison: 25% operating margin, zero
taxes, positive projected FCFF under both presets. -/
def dcfB : Baseline :=
  { zeroBaseline with
    revenue := 100, cogs := 55, sga := 20, da_total := 3
    shares_diluted := 10 }

/-- Same cost structure as `dcfB` but with a zero diluted share count. -/
def zeroSharesB : Baseline :=
  { zeroBaseline with
    revenue := 100, cogs := 55, sga := 20, da_total := 3
    shares_diluted := 0 }

/-- Pathological fixture: negative revenue with a cost ratio above 1, so both
presets still project positive FCFF, yet the Bear valuation comes out higher. -/
def negRevB : Baseline :=
  { zeroBaseline with revenue := -100, cogs := -197/2, shares_diluted := 1 }

/-- The revenue-proportional FCFF factor of a pro-forma row:
`fcff = revenue × ((1 - cogs% - sga%)(1 - T) + da% - capex%)`. -/
def fcffFactor (B : Baseline) (a : Assumptions) : ℚ :=
  (1 - cogsPct B - sgaPct B) * (1 - B.tax_rate) + daPct B - a.capex_pct

/-- Compounded growth product `Π_(j < m) (1 + f j)`, the closed form of the
`slice(0, i + 1).reduce(...)` revenue compounding in `buildProforma`. -/
def growthProd (f : ℕ → ℚ) (m : ℕ) : ℚ :=
  ((List.range m).map (fun j => 1 + f j)).prod

/-- Annual XBRL fixture: a ~365-day 10-K entry filed at time 1000. -/
def xbrlOld : Xbrl :=
  { form := "10-K", startD := some 0, endD := some (365 * dayMs)
    filed := some 1000, val := 900 }

/-- Annual XBRL fixture sharing `xbrlOld`'s period end but filed later. -/
def xbrlNew : Xbrl :=
  { form := "10-K", startD := some 0, endD := some (365 * dayMs)
    filed := some 2000, val := 1000 }

/-- Short-duration (100-day) 10-K entry, to be excluded by the duration filter. -/
def xbrlShort : Xbrl :=
  { form := "10-K", startD := some 0, endD := some (100 * dayMs)
    filed := some 3000, val := 500 }

/-- Minimal fixture whose only in-signal model is the P/E multiple: adjusted
EPS 1, one diluted share, zero projection horizon. -/
def wSigB : Baseline := { zeroBaseline with adj_eps := 1, shares_diluted := 1 }

/-- Single peer comp for `wSigB`: only the P/E multiple is non-zero. -/
def wSigComp : Comp := { ev_ebitda := 0, ev_rev := 0, pe := 10, peg := 0, pb := 0, pcf := none }

/-! ### Generic list lemmas used by several proofs -/

theorem mem_insertLe {α : Type} (le : α → α → Bool) (x a : α) (l : List α) :
    a ∈ insertLe le x l ↔ a = x ∨ a ∈ l := by
  induction l with
  | nil => simp [insertLe]
  | cons y ys ih =>
    by_cases h : le x y
    · simp [insertLe, h]
    · simp [insertLe, h, ih]
      tauto

theorem perm_insertLe {α : Type} (le : α → α → Bool) (x : α) (l : List α) :
    (insertLe le x l).Perm (x :: l) := by
  induction l with
  | nil => simp [insertLe]
  | cons y ys ih =>
    by_cases h : le x y
    · simp [insertLe, h]
    · simp only [insertLe, h, if_neg]
      exact (ih.cons y).trans (List.Perm.swap x y ys)

theorem perm_sortLe {α : Type} (le : α → α → Bool) (l : List α) :
    (sortLe le l).Perm l := by
  induction l with
  | nil => simp [sortLe]
  | cons x xs ih => exact (perm_insertLe le x (sortLe le xs)).trans (ih.cons x)

theorem mem_sortLe {α : Type} (le : α → α → Bool) (a : α) (l : List α) :
    a ∈ sortLe le l ↔ a ∈ l :=
  (perm_sortLe le l).mem_iff

theorem getLastD_map_range {α : Type} (g : ℕ → α) (d : α) (n : ℕ) (hn : n ≠ 0) :
    ((List.range n).map g).getLast?.getD d = g (n - 1) := by
  obtain ⟨m, rfl⟩ := Nat.exists_eq_succ_of_ne_zero hn
  rw [List.range_succ, List.map_append]
  simp

theorem zipWith_mul_map_range (F G : ℕ → ℚ) (n : ℕ) :
    List.zipWith (fun f df => f * df) ((List.range n).map F) ((List.range n).map G)
      = (List.range n).map (fun i => F i * G i) := by
  induction n with
  | zero => simp
  | succ m ih => simp [List.range_succ, List.zipWith_append, ih]

theorem zipWith_sum_eq_indexed (fcfs : List ℚ) (g : ℕ → ℚ) :
    (List.zipWith (fun f df => f * df) fcfs ((List.range fcfs.length).map g)).sum
      = ((List.range fcfs.length).map (fun i => fcfs.getD i 0 * g i)).sum := by
  induction fcfs generalizing g with
  | nil => simp
  | cons x t ih =>
    rw [List.length_cons, List.range_succ_eq_map]
    simp only [List.map_cons, List.zipWith_cons_cons, List.sum_cons, List.map_map]
    have h2 := ih (fun i => g (i + 1))
    simp only [Function.comp_def] at h2 ⊢
    simp [h2]

theorem sum_map_range_lt (F G : ℕ → ℚ) (n : ℕ) (hn : 0 < n) (h : ∀ i < n, F i < G i) :
    ((List.range n).map F).sum < ((List.range n).map G).sum := by
  induction n with
  | zero => exact absurd hn (lt_irrefl 0)
  | succ m ih =>
    rw [List.range_succ, List.map_append, List.map_append, List.sum_append, List.sum_append]
    rcases Nat.eq_zero_or_pos m with rfl | hm
    · simpa using h 0 (by omega)
    · exact add_lt_add (ih hm (fun i hi => h i (by omega))) (by simpa using h m (by omega))

/-! ### Claim theorems -/

/-- C9: applying any scenario preset only touches the preset-controlled fields
plus the scenario label — `proj_years_n`, `n_sims` and `ddm_g` are preserved for
every prior state and every scenario key, because the preset record omits them
and `applyScenario` spreads the preset over the previous state. -/
theorem c9_applyScenario_frame (prev : Assumptions) (s : ScenarioKey) :
    (applyScenario prev s).proj_years_n = prev.proj_years_n ∧
    (applyScenario prev s).n_sims = prev.n_sims ∧
    (applyScenario prev s).ddm_g = prev.ddm_g ∧
    (applyScenario prev s).scenario = s :=
  ⟨rfl, rfl, rfl, rfl⟩

/-- C6: `assignSignal` returns "N/A" exactly on non-positive market prices, and
for positive market prices it returns "BUY" iff intrinsic exceeds 115% of
market, "SELL" iff intrinsic is below 85% of market, and "HOLD" otherwise; in
particular `assignSignal(115.01, 100) = "BUY"`, `assignSignal(114.99, 100) =
"HOLD"` and `assignSignal(100, 0) = "N/A"`. -/
theorem c6_assignSignal_spec (intrinsic market : ℚ) :
    (market ≤ 0 → assignSignal intrinsic market = Signal.NA) ∧
    (0 < market →
      ((assignSignal intrinsic market = Signal.BUY ↔ market * (23/20) < intrinsic) ∧
       (assignSignal intrinsic market = Signal.SELL ↔ intrinsic < market * (17/20)) ∧
       (assignSignal intrinsic market = Signal.HOLD ↔
         intrinsic ≤ market * (23/20) ∧ market * (17/20) ≤ intrinsic))) ∧
    assignSignal (11501/100) 100 = Signal.BUY ∧
    assignSignal (11499/100) 100 = Signal.HOLD ∧
    assignSignal 100 0 = Signal.NA := by
  refine ⟨fun h => ?_, fun h => ?_, by norm_num [assignSignal], by norm_num [assignSignal],
    by norm_num [assignSignal]⟩
  · unfold assignSignal
    rw [if_pos (Or.inr h)]
  · have hg : ¬ (market = 0 ∨ market ≤ 0) := by
      push_neg
      exact ⟨ne_of_gt h, h⟩
    unfold assignSignal
    rw [if_neg hg]
    by_cases h1 : intrinsic > market * (23/20)
    · rw [if_pos h1]
      refine ⟨⟨fun _ => h1, fun _ => rfl⟩, ?_, ?_⟩
      · constructor
        · intro hc
          exact absurd hc (by simp)
        · intro hlt
          exfalso
          nlinarith
      · constructor
        · intro hc
          exact absurd hc (by simp)
        · intro hc
          exact absurd h1 (not_lt.mpr hc.1)
    · rw [if_neg h1]
      by_cases h2 : intrinsic < market * (17/20)
      · rw [if_pos h2]
        refine ⟨?_, ⟨fun _ => h2, fun _ => rfl⟩, ?_⟩
        · constructor
          · intro hc
            exact absurd hc (by simp)
          · intro hgt
            exact absurd hgt h1
        · constructor
          · intro hc
            exact absurd hc (by simp)
          · intro hc
            exact absurd h2 (not_lt.mpr hc.2)
      · rw [if_neg h2]
        refine ⟨?_, ?_, ⟨fun _ => ⟨not_lt.mp h1, not_lt.mp h2⟩, fun _ => rfl⟩⟩
        · constructor
          · intro hc
            exact absurd hc (by simp)
          · intro hgt
            exact absurd hgt h1
        · constructor
          · intro hc
            exact absurd hc (by simp)
          · intro hlt
            exact absurd hlt h2

/-- Witness for C6 at the boundary example 115.01 vs market 100. -/
theorem c6_assignSignal_witness : assignSignal (11501/100) 100 = Signal.BUY :=
  (((c6_assignSignal_spec (11501/100) 100).2.1 (by norm_num)).1).mpr (by norm_num)

/-- C10: on the empty cashflow array (any terminal value, discount rate, net
debt and non-zero share count), `dcfPrice` reads the final discount factor out
of an empty array, so `pvTv`, `ev` and `pps` are all NaN rather than the 0
sentinel; the 0 sentinel is produced only by the falsy-shares guard. -/
theorem c10_dcfPriceJS_empty_nan (tv r nd s : ℚ) (hs : s ≠ 0) :
    (dcfPriceJS [] (.num tv) (.num r) (.num nd) (.num s)).pvTv = JNum.nan ∧
    (dcfPriceJS [] (.num tv) (.num r) (.num nd) (.num s)).ev = JNum.nan ∧
    (dcfPriceJS [] (.num tv) (.num r) (.num nd) (.num s)).pps = JNum.nan ∧
    (dcfPriceJS [] (.num tv) (.num r) (.num nd) (.num 0)).pps = JNum.num 0 := by
  have ht : JNum.truthy (JNum.num s) = true := by simp [JNum.truthy, hs]
  refine ⟨rfl, rfl, ?_, rfl⟩
  simp [dcfPriceJS, jGet, ht, JNum.sub, JNum.neg, JNum.add, JNum.mul, JNum.div]

/-- Witness for C10 at terminal value 1, rate 0, net debt 0, one share. -/
theorem c10_dcfPriceJS_empty_nan_witness :
    (dcfPriceJS [] (.num 1) (.num 0) (.num 0) (.num 1)).pps = JNum.nan :=
  (c10_dcfPriceJS_empty_nan 1 0 0 1 (by norm_num)).2.2.1

/-- C4 counterexample: with a strictly negative share count the truthiness
guard `shares ? ... : 0` does not fire, so `dcfPrice` divides instead of
returning the 0 sentinel the claim asserts for all `shares ≤ 0`. -/
theorem c4_dcf_negative_shares_cex :
    ((-1 : ℚ) ≤ 0) ∧ (dcfPrice [100] 0 0 0 (-1)).pps = -100 := by
  constructor
  · norm_num
  · norm_num [dcfPrice, List.range_succ]

/-- C4 (amended): the discount factor for 1-indexed year `i` is `1/(1+r)^i`,
the PV of explicit cashflows is the sum of `cf_i` times its discount factor,
the PV of the terminal value is the terminal value times the final year's
discount factor (for a non-empty cashflow list), enterprise value is their sum,
and the price per share is `(EV - netDebt)/shares` for every non-zero share
count (positive or negative) and 0 exactly when `shares = 0`. -/
theorem c4_dcfPrice_amended (fcfs : List ℚ) (tv r nd s : ℚ) (h : fcfs ≠ []) :
    (dcfPrice fcfs tv r nd s).pvFcfs
        = ((List.range fcfs.length).map (fun i => fcfs.getD i 0 * (1 / (1 + r) ^ (i + 1)))).sum ∧
    (dcfPrice fcfs tv r nd s).pvTv = tv * (1 / (1 + r) ^ fcfs.length) ∧
    (dcfPrice fcfs tv r nd s).ev
        = (dcfPrice fcfs tv r nd s).pvFcfs + (dcfPrice fcfs tv r nd s).pvTv ∧
    (s = 0 → (dcfPrice fcfs tv r nd s).pps = 0) ∧
    (s ≠ 0 → (dcfPrice fcfs tv r nd s).pps = ((dcfPrice fcfs tv r nd s).ev - nd) / s) := by
  have hlen : fcfs.length - 1 + 1 = fcfs.length :=
    Nat.succ_pred_eq_of_pos (List.length_pos.mpr h)
  refine ⟨?_, ?_, rfl, ?_, ?_⟩
  · exact zipWith_sum_eq_indexed fcfs (fun i => 1 / (1 + r) ^ (i + 1))
  · have e : (dcfPrice fcfs tv r nd s).pvTv
        = tv * (((List.range fcfs.length).map (fun i => 1 / (1 + r) ^ (i + 1))).getLast?.getD 0) :=
      rfl
    rw [e, getLastD_map_range _ _ _ (by simpa using h), hlen]
  · intro hs
    simp [dcfPrice, hs]
  · intro hs
    simp [dcfPrice, hs]

/-- Witness for C4 on a concrete two-year cashflow. -/
theorem c4_dcfPrice_amended_witness :
    (dcfPrice [10, 20] 5 1 3 2).pvTv = 5 * (1 / (1 + 1) ^ ([10, 20] : List ℚ).length) :=
  (c4_dcfPrice_amended [10, 20] 5 1 3 2 (by simp)).2.1

/-- C3 counterexample: at the spec's own example rates with `E = 8000 > 0` and
`D = 0`, the inputs satisfy the claim's side conditions (`E, D ≥ 0`,
`E + D > 0`) yet the computed WACC equals `ke` exactly, so it does not lie
strictly between the after-tax cost of debt and the cost of equity. -/
theorem c3_computeWACC_strict_cex :
    ((0 : ℚ) ≤ 8000) ∧ ((0 : ℚ) ≤ 0) ∧ ((0 : ℚ) < 8000 + 0) ∧
    ¬ ((computeWACC (43/1000) (6/5) (11/200) (1/20) (1/4) 8000 0).wacc
        < (computeWACC (43/1000) (6/5) (11/200) (1/20) (1/4) 8000 0).ke) := by
  refine ⟨by norm_num, le_refl 0, by norm_num, ?_⟩
  norm_num [computeWACC]

/-- C3 (amended): with strictly positive equity and debt and an after-tax cost
of debt strictly below the cost of equity, the computed WACC lies strictly
between the two; and in the degenerate case `E = 0`, `D = 0` the function
returns `ke` exactly without dividing by zero. -/
theorem c3_computeWACC_bounds_amended (rf beta erp kd T E D : ℚ) :
    ((0 : ℚ) < E → (0 : ℚ) < D → kd * (1 - T) < rf + beta * erp →
      kd * (1 - T) < (computeWACC rf beta erp kd T E D).wacc ∧
      (computeWACC rf beta erp kd T E D).wacc < rf + beta * erp) ∧
    (E = 0 → D = 0 → (computeWACC rf beta erp kd T E D).wacc = rf + beta * erp) := by
  constructor
  · intro hE hD hlt
    have hV : (0 : ℚ) < E + D := by linarith
    have hwacc : (computeWACC rf beta erp kd T E D).wacc
        = (E / (E + D)) * (rf + beta * erp) + (D / (E + D)) * (kd * (1 - T)) := by
      simp only [computeWACC, if_neg (not_le.mpr hV)]
    rw [hwacc]
    constructor
    · rw [div_mul_eq_mul_div, div_mul_eq_mul_div, div_add_div_same, lt_div_iff hV]
      nlinarith [mul_pos hE (sub_pos.mpr hlt)]
    · rw [div_mul_eq_mul_div, div_mul_eq_mul_div, div_add_div_same, div_lt_iff hV]
      nlinarith [mul_pos hD (sub_pos.mpr hlt)]
  · rintro rfl rfl
    simp [computeWACC]

/-- Witness for C3 at the spec's example: rf 4.3%, beta 1.2, ERP 5.5%, kd 5%,
T 25%, E 8000, D 3000. -/
theorem c3_computeWACC_bounds_witness :
    (1/20 : ℚ) * (1 - 1/4) < (computeWACC (43/1000) (6/5) (11/200) (1/20) (1/4) 8000 3000).wacc ∧
    (computeWACC (43/1000) (6/5) (11/200) (1/20) (1/4) 8000 3000).wacc
      < 43/1000 + (6/5) * (11/200) :=
  (c3_computeWACC_bounds_amended (43/1000) (6/5) (11/200) (1/20) (1/4) 8000 3000).1
    (by norm_num) (by norm_num) (by norm_num)

/-- C7 counterexample: with ROE 20%, plowback 50% and the fixed baseline
`clampB`, both cost-of-equity values 9% and 8% fall in the
`g = ke - 0.001` clamp regime, so the justified P/E is 500 for both: the
strictly lower cost of equity does not yield a strictly larger justified P/E
or implied price. -/
theorem c7_justifiedPE_clamp_cex :
    ((2/25 : ℚ) < 9/100) ∧
    ¬ ((computeJustifiedPE clampB zeroAssumptions (9/100)).justifiedPE
        < (computeJustifiedPE clampB zeroAssumptions (2/25)).justifiedPE) ∧
    ¬ ((computeJustifiedPE clampB zeroAssumptions (9/100)).pps_jpe
        < (computeJustifiedPE clampB zeroAssumptions (2/25)).pps_jpe) := by
  refine ⟨by norm_num, ?_, ?_⟩ <;>
    norm_num [computeJustifiedPE, justRoe, justPlowback, clampB, zeroBaseline,
      zeroAssumptions, min_def]

/-- C7 (amended): holding the baseline fixed, the strictly lower of two
cost-of-equity values yields a strictly larger justified P/E (and, for a
positive forward EPS, a strictly larger implied price), provided the sustainable
growth `roe × plowback` stays strictly below `keLow - 0.001` (so the
`min` clamp binds for neither rate) and the plowback ratio is below 1. -/
theorem c7_justifiedPE_monotone_amended (B : Baseline) (a : Assumptions) (keHigh keLow : ℚ)
    (hk : keLow < keHigh) (hb : justPlowback B < 1)
    (hg : justRoe B * justPlowback B < keLow - 1/1000) :
    (computeJustifiedPE B a keHigh).justifiedPE < (computeJustifiedPE B a keLow).justifiedPE ∧
    (0 < B.eps * (1 + a.yr1_g) →
      (computeJustifiedPE B a keHigh).pps_jpe < (computeJustifiedPE B a keLow).pps_jpe) := by
  have hgH : justRoe B * justPlowback B < keHigh - 1/1000 := by linarith
  have hL : ¬ (keLow ≤ justRoe B * justPlowback B) := not_le.mpr (by linarith)
  have hH : ¬ (keHigh ≤ justRoe B * justPlowback B) := not_le.mpr (by linarith)
  have eL : (computeJustifiedPE B a keLow).justifiedPE
      = (1 - justPlowback B) / (keLow - justRoe B * justPlowback B) := by
    simp only [computeJustifiedPE, if_neg hL, min_eq_left (le_of_lt hg)]
  have eH : (computeJustifiedPE B a keHigh).justifiedPE
      = (1 - justPlowback B) / (keHigh - justRoe B * justPlowback B) := by
    simp only [computeJustifiedPE, if_neg hH, min_eq_left (le_of_lt hgH)]
  have eLp : (computeJustifiedPE B a keLow).pps_jpe
      = (1 - justPlowback B) / (keLow - justRoe B * justPlowback B) * (B.eps * (1 + a.yr1_g)) := by
    simp only [computeJustifiedPE, if_neg hL, min_eq_left (le_of_lt hg)]
  have eHp : (computeJustifiedPE B a keHigh).pps_jpe
      = (1 - justPlowback B) / (keHigh - justRoe B * justPlowback B) * (B.eps * (1 + a.yr1_g)) := by
    simp only [computeJustifiedPE, if_neg hH, min_eq_left (le_of_lt hgH)]
  have hmono : (1 - justPlowback B) / (keHigh - justRoe B * justPlowback B)
      < (1 - justPlowback B) / (keLow - justRoe B * justPlowback B) :=
    div_lt_div_of_pos_left (by linarith) (by linarith) (by linarith)
  constructor
  · rw [eL, eH]
    exact hmono
  · intro hf
    rw [eLp, eHp]
    exact mul_lt_mul_of_pos_right hmono hf

/-- Witness for C7 with ROE 10%, plowback 10%, EPS 1 and rates 9% vs 8%. -/
theorem c7_justifiedPE_monotone_witness :
    (computeJustifiedPE monoB zeroAssumptions (9/100)).justifiedPE
      < (computeJustifiedPE monoB zeroAssumptions (2/25)).justifiedPE :=
  (c7_justifiedPE_monotone_amended monoB zeroAssumptions (9/100) (2/25)
    (by norm_num) (by norm_num [justPlowback, monoB, zeroBaseline])
    (by norm_num [justRoe, justPlowback, monoB, zeroBaseline])).1

/-- C2: evaluation at the failing input.  With baseline cost ratios
55%/20%/3% (so the row EBITDA ratio is 28%) and `target_ebitda_m = 50%` over a
one-year horizon, the final projection row's reported EBITDA margin is 28%,
not the 50% glide target the claim (and the spec's glide sentence) requires:
`buildProforma` computes the glide value `ebitdaM` and never applies it. -/
theorem c2_proforma_margin_eval :
    ((buildProforma marginB (buildGrowthSchedule marginA) marginA).getLast?.getD
        zeroRow).ebitda_margin = 7/25 ∧
    marginA.target_ebitda_m = 1/2 ∧ ((7 : ℚ)/25 ≠ 1/2) := by
  refine ⟨?_, rfl, by norm_num⟩
  norm_num [buildProforma, buildGrowthSchedule, proformaRow, growthRate, marginB, marginA,
    zeroBaseline, zeroAssumptions, cogsPct, sgaPct, daPct, intPct, List.range_succ]

/-- C1 (amended): every signal-table row produced by the orchestrator has a
strictly positive intrinsic value (non-positive model values are filtered out
before the table is built), and the buy/hold/sell vote counts are exactly the
counts of signal-table rows carrying the respective signal — so no model with a
non-positive value participates in the vote.  (The dashboard's blended summary
figure, by contrast, does not exclude such models: see the counterexample.) -/
theorem c1_signalRows_exclusion_amended (B : Baseline) (comps : List Comp)
    (segments : List Segment) (acqs : List Acq) (e : ℚ) (a : Assumptions) :
    (∀ r ∈ (computeAllCore B comps segments acqs e a).signalRows, 0 < r.intrinsicValue) ∧
    (computeAllCore B comps segments acqs e a).buys
      = (computeAllCore B comps segments acqs e a).signalRows.countP
          (fun r => r.signal = Signal.BUY) ∧
    (computeAllCore B comps segments acqs e a).holds
      = (computeAllCore B comps segments acqs e a).signalRows.countP
          (fun r => r.signal = Signal.HOLD) ∧
    (computeAllCore B comps segments acqs e a).sells
      = (computeAllCore B comps segments acqs e a).signalRows.countP
          (fun r => r.signal = Signal.SELL) := by
  refine ⟨?_, rfl, rfl, rfl⟩
  intro r hr
  simp only [computeAllCore, List.mem_map, List.mem_filter, decide_eq_true_eq] at hr
  obtain ⟨p, ⟨hp1, hp2⟩, heq⟩ := hr
  rw [← heq]
  exact hp2

/-- Witness for C1 at a fixture whose only active model is the P/E multiple. -/
theorem c1_signalRows_exclusion_witness :
    0 < (SignalRow.mk "P/E Multiple" 10 none Signal.NA).intrinsicValue :=
  (c1_signalRows_exclusion_amended wSigB [wSigComp] [] [] 0 zeroAssumptions).1
    ⟨"P/E Multiple", 10, none, Signal.NA⟩
    (by norm_num [computeAllCore, median, sortLe, insertLe, buildGrowthSchedule, buildProforma,
      dcfPrice, computeWACC, computeFCFE, computeRI, computeHModelDDM, computeJustifiedPE,
      computeJustifiedPB, computePCF, justRoe, justPlowback, assignSignal, wSigB, wSigComp,
      zeroBaseline, zeroAssumptions, min_def])

/-- C1 counterexample: on a fixture whose P/B model has no data
(`pps_pb = 0`), the dashboard's 35%-FCFF / 45%-multiples-average / 20%-SOTP
blended summary still divides the five-multiples sum by 5, coercing the
no-data model to zero inside the average: the blend differs from the
exclusion-based blend the claim describes. -/
theorem c1_blend_includes_zero_cex :
    (computeAllCore blendB [blendComp] [] [] (1/20) oneYearA).pps_pb = 0 ∧
    summaryIntrinsic (computeAllCore blendB [blendComp] [] [] (1/20) oneYearA)
      ≠ specSummaryIntrinsic (computeAllCore blendB [blendComp] [] [] (1/20) oneYearA) := by
  constructor
  · norm_num [computeAllCore, median, sortLe, insertLe, blendB, blendComp, zeroBaseline]
  · norm_num [computeAllCore, summaryIntrinsic, specSummaryIntrinsic, multiplesAvgOf,
      specMultiplesAvg, median, sortLe, insertLe, buildGrowthSchedule, buildProforma,
      proformaRow, growthRate, dcfPrice, computeWACC, cogsPct, sgaPct, daPct, intPct,
      blendB, blendComp, oneYearA, zeroBaseline, zeroAssumptions, List.range_succ]

/-! ### Order facts for optional filed dates -/

theorem oLe_refl (a : Option ℤ) : oLe a a := by
  cases a <;> simp [oLe]

theorem oLe_trans {a b c : Option ℤ} (h1 : oLe a b) (h2 : oLe b c) : oLe a c := by
  cases a <;> cases b <;> cases c <;> simp_all [oLe] <;> omega

theorem oLe_of_filedGt_eq_false {a b : Option ℤ} (h : filedGt a b = false) : oLe a b := by
  cases a <;> cases b <;> simp_all [filedGt, oLe] <;> omega

theorem oLe_of_filedGt_eq_true {a b : Option ℤ} (h : filedGt a b = true) : oLe b a := by
  cases a <;> cases b <;> simp_all [filedGt, oLe] <;> omega

/-! ### Invariants of the insertion-ordered dedup map -/

theorem mem_setKey {p : ℤ × Xbrl} {k : ℤ} {e : Xbrl} {m : List (ℤ × Xbrl)}
    (hp : p ∈ setKey k e m) : p ∈ m ∨ p = (k, e) := by
  induction m with
  | nil =>
    simp [setKey] at hp
    exact Or.inr hp
  | cons q rest ih =>
    obtain ⟨k', e'⟩ := q
    by_cases hk : k' = k
    · subst hk
      rw [setKey, if_pos rfl] at hp
      by_cases hf : filedGt e.filed e'.filed
      · rw [if_pos hf] at hp
        rcases List.mem_cons.mp hp with h | h
        · exact Or.inr h
        · exact Or.inl (List.mem_cons_of_mem _ h)
      · rw [if_neg hf] at hp
        rcases List.mem_cons.mp hp with h | h
        · exact Or.inl (h ▸ List.mem_cons_self _ _)
        · exact Or.inl (List.mem_cons_of_mem _ h)
    · rw [setKey, if_neg hk] at hp
      rcases List.mem_cons.mp hp with h | h
      · exact Or.inl (h ▸ List.mem_cons_self _ _)
      · rcases ih h with h2 | h2
        · exact Or.inl (List.mem_cons_of_mem _ h2)
        · exact Or.inr h2

theorem setKey_preserves {m : List (ℤ × Xbrl)} {k : ℤ} {e : Xbrl} {p : ℤ × Xbrl}
    (hp : p ∈ m) : ∃ q ∈ setKey k e m, q.1 = p.1 ∧ oLe p.2.filed q.2.filed := by
  induction m with
  | nil => cases hp
  | cons hd rest ih =>
    obtain ⟨k', e'⟩ := hd
    rcases List.mem_cons.mp hp with h | h
    · subst h
      by_cases hk : k' = k
      · subst hk
        rw [setKey, if_pos rfl]
        by_cases hf : filedGt e.filed e'.filed
        · rw [if_pos hf]
          exact ⟨(k', e), List.mem_cons_self _ _, rfl, oLe_of_filedGt_eq_true hf⟩
        · rw [if_neg hf]
          exact ⟨(k', e'), List.mem_cons_self _ _, rfl, oLe_refl _⟩
      · rw [setKey, if_neg hk]
        exact ⟨(k', e'), List.mem_cons_self _ _, rfl, oLe_refl _⟩
    · by_cases hk : k' = k
      · subst hk
        rw [setKey, if_pos rfl]
        by_cases hf : filedGt e.filed e'.filed
        · rw [if_pos hf]
          exact ⟨p, List.mem_cons_of_mem _ h, rfl, oLe_refl _⟩
        · rw [if_neg hf]
          exact ⟨p, List.mem_cons_of_mem _ h, rfl, oLe_refl _⟩
      · rw [setKey, if_neg hk]
        obtain ⟨q, hq, hq1, hq2⟩ := ih h
        exact ⟨q, List.mem_cons_of_mem _ hq, hq1, hq2⟩

theorem setKey_self {m : List (ℤ × Xbrl)} {k : ℤ} {e : Xbrl} :
    ∃ q ∈ setKey k e m, q.1 = k ∧ oLe e.filed q.2.filed := by
  induction m with
  | nil => exact ⟨(k, e), by simp [setKey], rfl, oLe_refl _⟩
  | cons hd rest ih =>
    obtain ⟨k', e'⟩ := hd
    by_cases hk : k' = k
    · subst hk
      rw [setKey, if_pos rfl]
      by_cases hf : filedGt e.filed e'.filed
      · rw [if_pos hf]
        exact ⟨(k', e), List.mem_cons_self _ _, rfl, oLe_refl _⟩
      · rw [if_neg hf]
        exact ⟨(k', e'), List.mem_cons_self _ _, rfl,
          oLe_of_filedGt_eq_false (Bool.eq_false_iff.mpr hf)⟩
    · rw [setKey, if_neg hk]
      obtain ⟨q, hq, hq1, hq2⟩ := ih
      exact ⟨q, List.mem_cons_of_mem _ hq, hq1, hq2⟩

theorem keys_setKey (k : ℤ) (e : Xbrl) (m : List (ℤ × Xbrl)) :
    (setKey k e m).map Prod.fst
      = if k ∈ m.map Prod.fst then m.map Prod.fst else m.map Prod.fst ++ [k] := by
  induction m with
  | nil => simp [setKey]
  | cons hd rest ih =>
    obtain ⟨k', e'⟩ := hd
    by_cases hk : k' = k
    · subst hk
      rw [setKey, if_pos rfl]
      by_cases hf : filedGt e.filed e'.filed
      · rw [if_pos hf]
        simp
      · rw [if_neg hf]
        simp
    · rw [setKey, if_neg hk]
      by_cases hmem : k ∈ rest.map Prod.fst
      · simp only [List.map_cons, ih, if_pos hmem]
        rw [if_pos (List.mem_cons_of_mem _ hmem)]
      · simp only [List.map_cons, ih, if_neg hmem]
        rw [if_neg (by simp [hmem, Ne.symm hk])]
        simp

theorem nodup_keys_setKey {m : List (ℤ × Xbrl)} {k : ℤ} {e : Xbrl}
    (h : (m.map Prod.fst).Nodup) : ((setKey k e m).map Prod.fst).Nodup := by
  rw [keys_setKey]
  by_cases hmem : k ∈ m.map Prod.fst
  · rw [if_pos hmem]
    exact h
  · rw [if_neg hmem]
    simp [List.nodup_append, h, hmem]

theorem setKey_fst_inv {m : List (ℤ × Xbrl)} {e : Xbrl}
    (h : ∀ p ∈ m, p.1 = endKey p.2) :
    ∀ p ∈ setKey (endKey e) e m, p.1 = endKey p.2 := by
  intro p hp
  rcases mem_setKey hp with h2 | h2
  · exact h p h2
  · rw [h2]

/-! ### Invariants of the dedup fold -/

theorem fold_mem {l : List Xbrl} :
    ∀ {acc : List (ℤ × Xbrl)} {p : ℤ × Xbrl},
      p ∈ l.foldl (fun m x => setKey (endKey x) x m) acc → p ∈ acc ∨ p.2 ∈ l := by
  induction l with
  | nil => intro acc p hp; exact Or.inl hp
  | cons x t ih =>
    intro acc p hp
    rcases ih hp with h | h
    · rcases mem_setKey h with h2 | h2
      · exact Or.inl h2
      · exact Or.inr (by simp [h2])
    · exact Or.inr (List.mem_cons_of_mem _ h)

theorem fold_keys_nodup {l : List Xbrl} :
    ∀ {acc : List (ℤ × Xbrl)}, (acc.map Prod.fst).Nodup →
      ((l.foldl (fun m x => setKey (endKey x) x m) acc).map Prod.fst).Nodup := by
  induction l with
  | nil => intro acc h; exact h
  | cons x t ih => intro acc h; exact ih (nodup_keys_setKey h)

theorem fold_fst_inv {l : List Xbrl} :
    ∀ {acc : List (ℤ × Xbrl)}, (∀ p ∈ acc, p.1 = endKey p.2) →
      ∀ p ∈ l.foldl (fun m x => setKey (endKey x) x m) acc, p.1 = endKey p.2 := by
  induction l with
  | nil => intro acc h; exact h
  | cons x t ih => intro acc h; exact ih (setKey_fst_inv h)

theorem fold_good_mono {l : List Xbrl} :
    ∀ {acc : List (ℤ × Xbrl)} {x : Xbrl},
      (∃ q ∈ acc, q.1 = endKey x ∧ oLe x.filed q.2.filed) →
      ∃ q ∈ l.foldl (fun m y => setKey (endKey y) y m) acc,
        q.1 = endKey x ∧ oLe x.filed q.2.filed := by
  induction l with
  | nil => intro acc x h; exact h
  | cons y t ih =>
    intro acc x h
    obtain ⟨q, hq, hq1, hq2⟩ := h
    obtain ⟨q2, hq2m, hq21, hq22⟩ := @setKey_preserves acc (endKey y) y q hq
    exact ih ⟨q2, hq2m, hq21.trans hq1, oLe_trans hq2 hq22⟩

theorem fold_good_of_mem {l : List Xbrl} :
    ∀ {acc : List (ℤ × Xbrl)} {x : Xbrl}, x ∈ l →
      ∃ q ∈ l.foldl (fun m y => setKey (endKey y) y m) acc,
        q.1 = endKey x ∧ oLe x.filed q.2.filed := by
  induction l with
  | nil => intro acc x hx; cases hx
  | cons y t ih =>
    intro acc x hx
    rcases List.mem_cons.mp hx with h | h
    · subst h
      rw [List.foldl_cons]
      exact fold_good_mono (@setKey_self acc (endKey x) x)
    · exact ih h

/-- C8: `pickAnnual` keeps only input entries passing the annual filter
(standard annual form, both dates present, 300–400 day duration — so
out-of-range durations are excluded regardless of form); its result has
pairwise-distinct period-end dates (one entry per fiscal year-end); and every
input entry passing the filter is represented in the result by an entry with
the same period-end and a filed date at least as late. -/
theorem c8_pickAnnual_spec (values : List Xbrl) :
    (∀ e ∈ pickAnnual values, e ∈ values ∧ annualKeep e = true) ∧
    ((pickAnnual values).map endKey).Nodup ∧
    (∀ x ∈ values, annualKeep x = true →
      ∃ e ∈ pickAnnual values, endKey e = endKey x ∧ oLe x.filed e.filed) := by
  have hpick : pickAnnual values
      = sortLe (fun x y => decide (endKey x ≤ endKey y))
          (((values.filter annualKeep).foldl
            (fun m x => setKey (endKey x) x m) []).map (fun p => p.2)) := rfl
  have hfst : ∀ p ∈ (values.filter annualKeep).foldl (fun m x => setKey (endKey x) x m) [],
      p.1 = endKey p.2 := fold_fst_inv (by simp)
  refine ⟨?_, ?_, ?_⟩
  · intro e he
    rw [hpick, mem_sortLe] at he
    obtain ⟨p, hp, rfl⟩ := List.mem_map.mp he
    rcases fold_mem hp with h | h
    · cases h
    · have := List.mem_filter.mp h
      exact ⟨this.1, this.2⟩
  · have hperm : ((pickAnnual values).map endKey).Perm
        ((((values.filter annualKeep).foldl (fun m x => setKey (endKey x) x m) []).map
          (fun p => p.2)).map endKey) := by
      rw [hpick]
      exact (perm_sortLe _ _).map endKey
    rw [List.Perm.nodup_iff hperm]
    rw [List.map_map]
    have : (((values.filter annualKeep).foldl (fun m x => setKey (endKey x) x m) []).map
        (endKey ∘ fun p => p.2))
        = (((values.filter annualKeep).foldl (fun m x => setKey (endKey x) x m) []).map
          Prod.fst) := by
      apply List.map_congr_left
      intro p hp
      exact (hfst p hp).symm
    rw [this]
    exact fold_keys_nodup (by simp)
  · intro x hx hkeep
    have hxf : x ∈ values.filter annualKeep := List.mem_filter.mpr ⟨hx, hkeep⟩
    obtain ⟨q, hq, hq1, hq2⟩ := @fold_good_of_mem (values.filter annualKeep) [] x hxf
    refine ⟨q.2, ?_, ?_, hq2⟩
    · rw [hpick, mem_sortLe]
      exact List.mem_map.mpr ⟨q, hq, rfl⟩
    · rw [← hfst q hq]
      exact hq1

/-- Witness for C8 on two same-period-end annual entries (the later-filed one
must represent the pair) plus a short-duration entry. -/
theorem c8_pickAnnual_witness :
    ∃ e ∈ pickAnnual [xbrlOld, xbrlNew, xbrlShort],
      endKey e = endKey xbrlOld ∧ oLe xbrlOld.filed e.filed :=
  (c8_pickAnnual_spec [xbrlOld, xbrlNew, xbrlShort]).2.2 xbrlOld (by simp)
    (by norm_num [annualKeep, isAnnualForm, xbrlOld, dayMs])

/-! ### Closed forms and monotonicity facts for the scenario comparison -/

theorem foldl_one_mul (l : List ℚ) (c : ℚ) :
    l.foldl (fun acc g => acc * (1 + g)) c = c * (l.map (fun g => 1 + g)).prod := by
  induction l generalizing c with
  | nil => simp
  | cons x t ih =>
    simp only [List.foldl_cons, List.map_cons, List.prod_cons]
    rw [ih]
    ring

theorem growthProd_succ (f : ℕ → ℚ) (m : ℕ) :
    growthProd f (m + 1) = growthProd f m * (1 + f m) := by
  simp [growthProd, List.range_succ]

theorem growthProd_pos (f : ℕ → ℚ) (m : ℕ) (h : ∀ j < m, 0 < 1 + f j) :
    0 < growthProd f m := by
  induction m with
  | zero => simp [growthProd]
  | succ k ih =>
    rw [growthProd_succ]
    exact mul_pos (ih (fun j hj => h j (by omega))) (h k (by omega))

theorem growthProd_lt (f g : ℕ → ℚ) (m : ℕ) (hm : 0 < m)
    (hpos : ∀ j < m, 0 < 1 + f j) (hlt : ∀ j < m, f j < g j) :
    growthProd f m < growthProd g m := by
  induction m with
  | zero => exact absurd hm (lt_irrefl 0)
  | succ k ih =>
    rcases Nat.eq_zero_or_pos k with rfl | hk
    · have e0 : ∀ h : ℕ → ℚ, growthProd h 0 = 1 := by
        intro h
        simp [growthProd]
      rw [growthProd_succ, growthProd_succ, e0, e0]
      have := hlt 0 (by omega)
      linarith
    · rw [growthProd_succ, growthProd_succ]
      exact mul_lt_mul'' (ih hk (fun j hj => hpos j (by omega)) (fun j hj => hlt j (by omega)))
        (by have := hlt k (by omega); linarith)
        (growthProd_pos f k (fun j hj => hpos j (by omega))).le
        (hpos k (by omega)).le

theorem proformaRow_fcff (B : Baseline) (gs : List ℚ) (a : Assumptions) (i : ℕ) :
    (proformaRow B gs a i).fcff
      = B.revenue * ((gs.take (i + 1)).map (fun g => 1 + g)).prod * fcffFactor B a := by
  simp only [proformaRow, fcffFactor]
  rw [foldl_one_mul]
  ring

theorem buildGrowthSchedule_take (a : Assumptions) (i : ℕ) (hi : i < a.proj_years_n) :
    (buildGrowthSchedule a).take (i + 1) = (List.range (i + 1)).map (growthRate a) := by
  rw [buildGrowthSchedule, ← List.map_take, List.take_range, Nat.min_eq_left (by omega)]

theorem proformaRow_fcff_closed (B : Baseline) (a : Assumptions) (i : ℕ)
    (hi : i < a.proj_years_n) :
    (proformaRow B (buildGrowthSchedule a) a i).fcff
      = B.revenue * growthProd (growthRate a) (i + 1) * fcffFactor B a := by
  rw [proformaRow_fcff, buildGrowthSchedule_take a i hi, growthProd, List.map_map]
  rfl

theorem bear_growth_lt_base (a0 : Assumptions) (i : ℕ) (hi : i < a0.proj_years_n) :
    0 < growthRate (applyScenario a0 ScenarioKey.Bear) i ∧
    growthRate (applyScenario a0 ScenarioKey.Bear) i
      < growthRate (applyScenario a0 ScenarioKey.Base) i := by
  match i with
  | 0 => constructor <;> norm_num [growthRate, applyScenario, SCENARIO_PRESETS]
  | 1 => constructor <;> norm_num [growthRate, applyScenario, SCENARIO_PRESETS]
  | 2 => constructor <;> norm_num [growthRate, applyScenario, SCENARIO_PRESETS]
  | (k + 3) =>
    have hk4 : (k + 4 : ℕ) ≤ a0.proj_years_n := hi
    have hcast : ((k : ℚ) + 4) ≤ (a0.proj_years_n : ℚ) := by exact_mod_cast hk4
    have hmaxpos : (0 : ℚ) < max ((a0.proj_years_n : ℚ) - 3) 1 :=
      lt_of_lt_of_le one_pos (le_max_right _ _)
    have hfade0 : (0 : ℚ) ≤ (((k + 3 : ℕ) : ℚ) - 2) / max ((a0.proj_years_n : ℚ) - 3) 1 := by
      apply div_nonneg _ hmaxpos.le
      push_cast
      linarith
    have hfade1 : (((k + 3 : ℕ) : ℚ) - 2) / max ((a0.proj_years_n : ℚ) - 3) 1 ≤ 1 := by
      rw [div_le_one hmaxpos]
      calc ((k + 3 : ℕ) : ℚ) - 2 ≤ (a0.proj_years_n : ℚ) - 3 := by push_cast; linarith
        _ ≤ max ((a0.proj_years_n : ℚ) - 3) 1 := le_max_left _ _
    have h0 : k + 3 ≠ 0 := by omega
    have h1 : k + 3 ≠ 1 := by omega
    have h2 : k + 3 ≠ 2 := by omega
    push_cast at hfade0 hfade1
    constructor
    · simp only [growthRate, applyScenario, SCENARIO_PRESETS, if_neg h0, if_neg h1, if_neg h2]
      push_cast
      nlinarith [hfade0, hfade1]
    · simp only [growthRate, applyScenario, SCENARIO_PRESETS, if_neg h0, if_neg h1, if_neg h2]
      push_cast
      nlinarith [hfade0, hfade1]

theorem bear_df_lt_base (i : ℕ) :
    (0 : ℚ) < 1 / (1 + 1/10) ^ (i + 1) ∧
    (1 : ℚ) / (1 + 1/10) ^ (i + 1) < 1 / (1 + 17/200) ^ (i + 1) := by
  have h2 : (0 : ℚ) < (1 + 1/10) ^ (i + 1) := pow_pos (by norm_num) _
  have h1 : (0 : ℚ) < (1 + 17/200) ^ (i + 1) := pow_pos (by norm_num) _
  have h3 : ((1 : ℚ) + 17/200) ^ (i + 1) < (1 + 1/10) ^ (i + 1) :=
    pow_lt_pow_left (by norm_num) (by norm_num) (Nat.succ_ne_zero i)
  exact ⟨by positivity, one_div_lt_one_div_of_lt h1 h3⟩

theorem computeAllCore_pps_fcff (B : Baseline) (comps : List Comp) (segments : List Segment)
    (acqs : List Acq) (e : ℚ) (a : Assumptions) :
    (computeAllCore B comps segments acqs e a).pps_fcff
      = (dcfPrice ((buildProforma B (buildGrowthSchedule a) a).map (fun r => r.fcff))
          (if a.wacc > a.terminal_g then
            ((((buildProforma B (buildGrowthSchedule a) a).map
                (fun r => r.fcff)).getLast?).getD 0)
              * (1 + a.terminal_g) / (a.wacc - a.terminal_g)
          else ((buildProforma B (buildGrowthSchedule a) a).getLast?.getD zeroRow).ebitda
              * a.exit_mult)
          a.wacc B.net_debt B.shares_diluted).pps := rfl

theorem dcfPrice_pps_closed (F : ℕ → ℚ) (n : ℕ) (tv w nd s : ℚ) (hs : s ≠ 0) (hn : n ≠ 0) :
    (dcfPrice ((List.range n).map F) tv w nd s).pps
      = ((((List.range n).map (fun i => F i * (1 / (1 + w) ^ (i + 1)))).sum
          + tv * (1 / (1 + w) ^ n)) - nd) / s := by
  simp only [dcfPrice, List.length_map, List.length_range]
  rw [zipWith_mul_map_range, getLastD_map_range _ _ _ hn, if_pos hs,
    Nat.sub_add_cancel (Nat.one_le_iff_ne_zero.mpr hn)]

/-- C5 (amended): for a baseline with positive revenue and a positive diluted
share count, any projection horizon of at least one year, and positive
projected FCFF under both the Base and Bear presets, running the orchestrator
with the Bear preset (WACC 10%, yr1 growth 0.5%, CapEx 3%) produces a strictly
lower FCFF-DCF price per share than with the Base preset (WACC 8.5%, yr1 growth
2.5%, CapEx 2.5%), all other inputs equal. -/
theorem c5_bear_lt_base_amended (B : Baseline) (a0 : Assumptions) (comps : List Comp)
    (segments : List Segment) (acqs : List Acq) (e : ℚ)
    (hrev : 0 < B.revenue) (hsh : 0 < B.shares_diluted) (hn : 1 ≤ a0.proj_years_n)
    (hR : ∀ r ∈ buildProforma B (buildGrowthSchedule (applyScenario a0 ScenarioKey.Bear))
        (applyScenario a0 ScenarioKey.Bear), 0 < r.fcff)
    (hB : ∀ r ∈ buildProforma B (buildGrowthSchedule (applyScenario a0 ScenarioKey.Base))
        (applyScenario a0 ScenarioKey.Base), 0 < r.fcff) :
    (computeAllCore B comps segments acqs e (applyScenario a0 ScenarioKey.Bear)).pps_fcff <
      (computeAllCore B comps segments acqs e (applyScenario a0 ScenarioKey.Base)).pps_fcff := by
  have hnR : (applyScenario a0 ScenarioKey.Bear).proj_years_n = a0.proj_years_n := rfl
  have hnB : (applyScenario a0 ScenarioKey.Base).proj_years_n = a0.proj_years_n := rfl
  have hlenR : (buildGrowthSchedule (applyScenario a0 ScenarioKey.Bear)).length
      = a0.proj_years_n := by
    simp [buildGrowthSchedule, hnR]
  have hlenB : (buildGrowthSchedule (applyScenario a0 ScenarioKey.Base)).length
      = a0.proj_years_n := by
    simp [buildGrowthSchedule, hnB]
  -- preset FCFF factors differ exactly by the CapEx percentage gap
  have hKdiff : fcffFactor B (applyScenario a0 ScenarioKey.Base)
      = fcffFactor B (applyScenario a0 ScenarioKey.Bear) + 1/200 := by
    simp only [fcffFactor, applyScenario, SCENARIO_PRESETS]
    ring
  -- growth-product positivity and comparison
  have hQpos : ∀ i < a0.proj_years_n,
      0 < growthProd (growthRate (applyScenario a0 ScenarioKey.Bear)) (i + 1) := by
    intro i hi
    apply growthProd_pos
    intro j hj
    have := (bear_growth_lt_base a0 j (by omega)).1
    linarith
  have hQposB : ∀ i < a0.proj_years_n,
      0 < growthProd (growthRate (applyScenario a0 ScenarioKey.Base)) (i + 1) := by
    intro i hi
    apply growthProd_pos
    intro j hj
    have h1 := (bear_growth_lt_base a0 j (by omega)).1
    have h2 := (bear_growth_lt_base a0 j (by omega)).2
    linarith
  have hQlt : ∀ i < a0.proj_years_n,
      growthProd (growthRate (applyScenario a0 ScenarioKey.Bear)) (i + 1)
        < growthProd (growthRate (applyScenario a0 ScenarioKey.Base)) (i + 1) := by
    intro i hi
    apply growthProd_lt _ _ _ (by omega)
    · intro j hj
      have := (bear_growth_lt_base a0 j (by omega)).1
      linarith
    · intro j hj
      exact (bear_growth_lt_base a0 j (by omega)).2
  -- positivity of the Bear FCFF factor, from the positivity hypothesis at year 1
  have hmem0 : proformaRow B (buildGrowthSchedule (applyScenario a0 ScenarioKey.Bear))
      (applyScenario a0 ScenarioKey.Bear) 0
      ∈ buildProforma B (buildGrowthSchedule (applyScenario a0 ScenarioKey.Bear))
          (applyScenario a0 ScenarioKey.Bear) := by
    rw [buildProforma]
    exact List.mem_map.mpr ⟨0, List.mem_range.mpr (by rw [hlenR]; omega), rfl⟩
  have h0 := hR _ hmem0
  rw [proformaRow_fcff_closed B (applyScenario a0 ScenarioKey.Bear) 0 (by rw [hnR]; omega)] at h0
  norm_num at h0
  have hKR : 0 < fcffFactor B (applyScenario a0 ScenarioKey.Bear) := by
    by_contra hneg
    push_neg at hneg
    have hle : B.revenue * growthProd (growthRate (applyScenario a0 ScenarioKey.Bear)) 1
        * fcffFactor B (applyScenario a0 ScenarioKey.Bear) ≤ 0 :=
      mul_nonpos_of_nonneg_of_nonpos (mul_pos hrev (hQpos 0 (by omega))).le hneg
    linarith
  -- pointwise FCFF comparison in closed form
  have hFpos : ∀ i < a0.proj_years_n,
      0 < (proformaRow B (buildGrowthSchedule (applyScenario a0 ScenarioKey.Bear))
        (applyScenario a0 ScenarioKey.Bear) i).fcff := by
    intro i hi
    rw [proformaRow_fcff_closed B _ i (by rw [hnR]; omega)]
    exact mul_pos (mul_pos hrev (hQpos i hi)) hKR
  have hFlt : ∀ i < a0.proj_years_n,
      (proformaRow B (buildGrowthSchedule (applyScenario a0 ScenarioKey.Bear))
        (applyScenario a0 ScenarioKey.Bear) i).fcff
      < (proformaRow B (buildGrowthSchedule (applyScenario a0 ScenarioKey.Base))
        (applyScenario a0 ScenarioKey.Base) i).fcff := by
    intro i hi
    rw [proformaRow_fcff_closed B _ i (by rw [hnR]; omega),
      proformaRow_fcff_closed B _ i (by rw [hnB]; omega)]
    exact mul_lt_mul'' (mul_lt_mul_of_pos_left (hQlt i hi) hrev)
      (by rw [hKdiff]; linarith)
      (mul_pos hrev (hQpos i hi)).le hKR.le
  -- rewrite both sides into closed DCF form
  have hmapR : (buildProforma B (buildGrowthSchedule (applyScenario a0 ScenarioKey.Bear))
      (applyScenario a0 ScenarioKey.Bear)).map (fun r => r.fcff)
      = (List.range a0.proj_years_n).map
          (fun i => (proformaRow B (buildGrowthSchedule (applyScenario a0 ScenarioKey.Bear))
            (applyScenario a0 ScenarioKey.Bear) i).fcff) := by
    rw [buildProforma, hlenR, List.map_map]
    rfl
  have hmapB : (buildProforma B (buildGrowthSchedule (applyScenario a0 ScenarioKey.Base))
      (applyScenario a0 ScenarioKey.Base)).map (fun r => r.fcff)
      = (List.range a0.proj_years_n).map
          (fun i => (proformaRow B (buildGrowthSchedule (applyScenario a0 ScenarioKey.Base))
            (applyScenario a0 ScenarioKey.Base) i).fcff) := by
    rw [buildProforma, hlenB, List.map_map]
    rfl
  have hcondR : (applyScenario a0 ScenarioKey.Bear).wacc
      > (applyScenario a0 ScenarioKey.Bear).terminal_g := by
    show (1 : ℚ)/10 > 1/50
    norm_num
  have hcondB : (applyScenario a0 ScenarioKey.Base).wacc
      > (applyScenario a0 ScenarioKey.Base).terminal_g := by
    show (17 : ℚ)/200 > 1/40
    norm_num
  rw [computeAllCore_pps_fcff, computeAllCore_pps_fcff, if_pos hcondR, if_pos hcondB,
    hmapR, hmapB, getLastD_map_range _ _ _ (by omega), getLastD_map_range _ _ _ (by omega)]
  have hwR : (applyScenario a0 ScenarioKey.Bear).wacc = 1/10 := rfl
  have htgR : (applyScenario a0 ScenarioKey.Bear).terminal_g = 1/50 := rfl
  have hwB : (applyScenario a0 ScenarioKey.Base).wacc = 17/200 := rfl
  have htgB : (applyScenario a0 ScenarioKey.Base).terminal_g = 1/40 := rfl
  rw [hwR, htgR, hwB, htgB,
    dcfPrice_pps_closed _ _ _ _ _ _ (ne_of_gt hsh) (by omega),
    dcfPrice_pps_closed _ _ _ _ _ _ (ne_of_gt hsh) (by omega)]
  -- explicit-cashflow PV comparison
  have hsum : ((List.range a0.proj_years_n).map
      (fun i => (proformaRow B (buildGrowthSchedule (applyScenario a0 ScenarioKey.Bear))
        (applyScenario a0 ScenarioKey.Bear) i).fcff * (1 / (1 + 1/10) ^ (i + 1)))).sum
      < ((List.range a0.proj_years_n).map
      (fun i => (proformaRow B (buildGrowthSchedule (applyScenario a0 ScenarioKey.Base))
        (applyScenario a0 ScenarioKey.Base) i).fcff * (1 / (1 + 17/200) ^ (i + 1)))).sum := by
    apply sum_map_range_lt _ _ _ (by omega)
    intro i hi
    exact mul_lt_mul'' (hFlt i hi) (bear_df_lt_base i).2 (hFpos i hi).le (bear_df_lt_base i).1.le
  -- terminal-value PV comparison
  have hFnpos := hFpos (a0.proj_years_n - 1) (by omega)
  have hFnlt := hFlt (a0.proj_years_n - 1) (by omega)
  have hdfn := bear_df_lt_base (a0.proj_years_n - 1)
  rw [Nat.sub_add_cancel hn] at hdfn
  have htvR : 0 < (proformaRow B (buildGrowthSchedule (applyScenario a0 ScenarioKey.Bear))
      (applyScenario a0 ScenarioKey.Bear) (a0.proj_years_n - 1)).fcff * (1 + 1/50)
        / (1/10 - 1/50) :=
    div_pos (mul_pos hFnpos (by norm_num)) (by norm_num)
  have htvlt : (proformaRow B (buildGrowthSchedule (applyScenario a0 ScenarioKey.Bear))
      (applyScenario a0 ScenarioKey.Bear) (a0.proj_years_n - 1)).fcff * (1 + 1/50)
        / (1/10 - 1/50)
      < (proformaRow B (buildGrowthSchedule (applyScenario a0 ScenarioKey.Base))
      (applyScenario a0 ScenarioKey.Base) (a0.proj_years_n - 1)).fcff * (1 + 1/40)
        / (17/200 - 1/40) := by
    rw [div_lt_div_iff (by norm_num) (by norm_num)]
    nlinarith [hFnpos, hFnlt]
  have htvterm : (proformaRow B (buildGrowthSchedule (applyScenario a0 ScenarioKey.Bear))
      (applyScenario a0 ScenarioKey.Bear) (a0.proj_years_n - 1)).fcff * (1 + 1/50)
        / (1/10 - 1/50) * (1 / (1 + 1/10) ^ a0.proj_years_n)
      < (proformaRow B (buildGrowthSchedule (applyScenario a0 ScenarioKey.Base))
      (applyScenario a0 ScenarioKey.Base) (a0.proj_years_n - 1)).fcff * (1 + 1/40)
        / (17/200 - 1/40) * (1 / (1 + 17/200) ^ a0.proj_years_n) :=
    mul_lt_mul'' htvlt hdfn.2 htvR.le hdfn.1.le
  have hfinal := sub_lt_sub_right (add_lt_add hsum htvterm) B.net_debt
  exact div_lt_div_of_pos_right hfinal hsh

/-- C5 counterexample: the claim quantifies over every baseline whose projected
FCFFs are positive under both presets, but (a) with a zero diluted share count
both preset prices are the 0 sentinel, so the Bear price is not strictly lower;
and (b) with a negative-revenue baseline (cost ratio above 1) whose projected
FCFFs are still positive under both presets, the Bear price comes out strictly
HIGHER than the Base price. -/
theorem c5_scenario_cex :
    (∀ r ∈ buildProforma zeroSharesB
        (buildGrowthSchedule (applyScenario oneYearA ScenarioKey.Bear))
        (applyScenario oneYearA ScenarioKey.Bear), 0 < r.fcff) ∧
    (∀ r ∈ buildProforma zeroSharesB
        (buildGrowthSchedule (applyScenario oneYearA ScenarioKey.Base))
        (applyScenario oneYearA ScenarioKey.Base), 0 < r.fcff) ∧
    ¬ ((computeAllCore zeroSharesB [] [] [] 0 (applyScenario oneYearA ScenarioKey.Bear)).pps_fcff
        < (computeAllCore zeroSharesB [] [] [] 0
            (applyScenario oneYearA ScenarioKey.Base)).pps_fcff) ∧
    (∀ r ∈ buildProforma negRevB
        (buildGrowthSchedule (applyScenario oneYearA ScenarioKey.Bear))
        (applyScenario oneYearA ScenarioKey.Bear), 0 < r.fcff) ∧
    (∀ r ∈ buildProforma negRevB
        (buildGrowthSchedule (applyScenario oneYearA ScenarioKey.Base))
        (applyScenario oneYearA ScenarioKey.Base), 0 < r.fcff) ∧
    (computeAllCore negRevB [] [] [] 0 (applyScenario oneYearA ScenarioKey.Base)).pps_fcff
      < (computeAllCore negRevB [] [] [] 0 (applyScenario oneYearA ScenarioKey.Bear)).pps_fcff := by
  refine ⟨?_, ?_, ?_, ?_, ?_, ?_⟩
  · norm_num [buildProforma, buildGrowthSchedule, proformaRow, growthRate, applyScenario,
      SCENARIO_PRESETS, zeroSharesB, oneYearA, zeroAssumptions, zeroBaseline, cogsPct, sgaPct,
      daPct, intPct, List.range_succ]
  · norm_num [buildProforma, buildGrowthSchedule, proformaRow, growthRate, applyScenario,
      SCENARIO_PRESETS, zeroSharesB, oneYearA, zeroAssumptions, zeroBaseline, cogsPct, sgaPct,
      daPct, intPct, List.range_succ]
  · rw [computeAllCore_pps_fcff, computeAllCore_pps_fcff]
    norm_num [dcfPrice, buildProforma, buildGrowthSchedule, proformaRow, growthRate,
      applyScenario, SCENARIO_PRESETS, zeroSharesB, oneYearA, zeroAssumptions, zeroBaseline,
      cogsPct, sgaPct, daPct, intPct, List.range_succ]
  · norm_num [buildProforma, buildGrowthSchedule, proformaRow, growthRate, applyScenario,
      SCENARIO_PRESETS, negRevB, oneYearA, zeroAssumptions, zeroBaseline, cogsPct, sgaPct,
      daPct, intPct, List.range_succ]
  · norm_num [buildProforma, buildGrowthSchedule, proformaRow, growthRate, applyScenario,
      SCENARIO_PRESETS, negRevB, oneYearA, zeroAssumptions, zeroBaseline, cogsPct, sgaPct,
      daPct, intPct, List.range_succ]
  · rw [computeAllCore_pps_fcff, computeAllCore_pps_fcff]
    norm_num [dcfPrice, buildProforma, buildGrowthSchedule, proformaRow, growthRate,
      applyScenario, SCENARIO_PRESETS, negRevB, oneYearA, zeroAssumptions, zeroBaseline,
      cogsPct, sgaPct, daPct, intPct, List.range_succ]

/-- Witness for C5 on a healthy one-year baseline (Bear price strictly below
Base price). -/
theorem c5_bear_lt_base_witness :
    (computeAllCore dcfB [] [] [] 0 (applyScenario oneYearA ScenarioKey.Bear)).pps_fcff
      < (computeAllCore dcfB [] [] [] 0 (applyScenario oneYearA ScenarioKey.Base)).pps_fcff :=
  c5_bear_lt_base_amended dcfB oneYearA [] [] [] 0
    (by norm_num [dcfB, zeroBaseline])
    (by norm_num [dcfB, zeroBaseline])
    (le_refl 1)
    (by norm_num [buildProforma, buildGrowthSchedule, proformaRow, growthRate, applyScenario,
      SCENARIO_PRESETS, dcfB, oneYearA, zeroAssumptions, zeroBaseline, cogsPct, sgaPct,
      daPct, intPct, List.range_succ])
    (by norm_num [buildProforma, buildGrowthSchedule, proformaRow, growthRate, applyScenario,
      SCENARIO_PRESETS, dcfB, oneYearA, zeroAssumptions, zeroBaseline, cogsPct, sgaPct,
      daPct, intPct, List.range_succ])
